import Mathlib

/-!
TSS463 VAN controller driver: register protocol and channel encoder.

A shallow embedding of `tss463_van.cpp`.  The driver talks to the chip over a
byte-oriented synchronous link.  The link is modelled by the sequence of
transport actions the driver issues (`Action`) and by the bytes the chip shifts
back, one per exchange (`Driver.miso`).  Machine integers are natural numbers;
conversions to `uint8_t` and assignments to bit-fields are written out as
explicit reductions.
-/

namespace TSS463

/-! ## Transport -/

/-- One action on the link: chip select, chip deselect, a byte exchange and a
busy-wait of `ms` milliseconds. -/
inductive Action where
  | select
  | deselect
  | exchange (data : Nat)
  | delay (ms : Nat)
  deriving DecidableEq, Repr

/-- Driver state.  `miso k` is the byte the chip shifts out during the `k`-th
exchange, `clock` counts the exchanges made so far, `trace` is the list of
transport actions issued (oldest first) and `error` is the handshake error
counter of the class.  The counter is declared in `tss463_van.h`, which is not
among the sources; it is modelled without a width, so it never wraps. -/
structure Driver where
  miso : Nat → Nat
  clock : Nat
  trace : List Action
  error : Nat

/-- Modelled from the spec: the constants of `tss463_van.h`, which is not among
the sources.  The handshake answers, the two command codes, the base address of
the channel register blocks and the address of the last-message-status
register are fixed by the chip; every result below holds for all values. -/
structure Header where
  ADDR_ANSW : Nat
  CMD_ANSW : Nat
  WRITE : Nat
  READ : Nat
  CHANNEL_BASE : Nat
  LASTMESSAGESTATUS : Nat

/-- Modelled from the spec: `CHANNEL_ADDR(x)`, the fixed register block base
plus `channelIndex * 8` (the macro is defined in the header). -/
def CHANNEL_ADDR (H : Header) (x : Nat) : Nat :=
  H.CHANNEL_BASE + x * 8

/-- Modelled from the spec: `GETMAIL(x)`, the mailbox address `0x80 + offset`
(the macro is defined in the header). -/
def GETMAIL (x : Nat) : Nat :=
  0x80 + x

/-- Conversion of an `int` expression to `uint8_t`. -/
def u8 (x : Nat) : Nat :=
  x % 256

/-- Assignment of an unsigned value to a bit-field of `width` bits. -/
def bits (width : Nat) (v : Nat) : Nat :=
  v % 2 ^ width

/-- Assignment of a possibly negative `int` to an unsigned bit-field of `width`
bits. -/
def bitsInt (width : Nat) (v : Int) : Nat :=
  (v % 2 ^ width).toNat

/-- Source `ExtractBits(value, numberOfBits, pos)`:
`((1 << numberOfBits) - 1) & (value >> (pos - 1))`. -/
def ExtractBits (value numberOfBits pos : Nat) : Nat :=
  ((1 <<< numberOfBits) - 1) &&& (value >>> (pos - 1))

/-- Source `TSS463_SELECT()`. -/
def TSS463_SELECT (s : Driver) : Driver :=
  { s with trace := s.trace ++ [Action.select] }

/-- Source `TSS463_UNSELECT()`. -/
def TSS463_UNSELECT (s : Driver) : Driver :=
  { s with trace := s.trace ++ [Action.deselect] }

/-- Source `_delay_ms(ms)`: only the order of the waits is recorded. -/
def delay_ms (ms : Nat) (s : Driver) : Driver :=
  { s with trace := s.trace ++ [Action.delay ms] }

/-- Source `spi_transfer(data)`: shifts `data` out and returns the byte shifted in.
The wait for the transfer-complete flag is assumed to end. -/
def spi_transfer (data : Nat) (s : Driver) : Nat × Driver :=
  (s.miso s.clock,
   { s with clock := s.clock + 1, trace := s.trace ++ [Action.exchange data] })

/-- The statement `if (res != expected) error++;`. -/
def check_answer (res expected : Nat) (s : Driver) : Driver :=
  { s with error := if res ≠ expected then s.error + 1 else s.error }

/-! ## Register access protocol -/

/-- Source `register_set(address, value)`. -/
def register_set (H : Header) (address value : Nat) (s : Driver) : Driver :=
  let s := TSS463_SELECT s
  let s := delay_ms 4 s
  let r := spi_transfer address s
  let s := check_answer r.1 H.ADDR_ANSW r.2
  let s := delay_ms 8 s
  let r := spi_transfer H.WRITE s
  let s := check_answer r.1 H.CMD_ANSW r.2
  let s := delay_ms 15 s
  let r := spi_transfer value s
  let s := delay_ms 12 r.2
  TSS463_UNSELECT s

/-- Source `registers_set(address, values, count)`.  `values[i]` beyond the caller's
array reads as `0`. -/
def registers_set (H : Header) (address : Nat) (values : List Nat) (count : Nat)
    (s : Driver) : Driver :=
  let s := TSS463_SELECT s
  let s := delay_ms 4 s
  let r := spi_transfer address s
  let s := check_answer r.1 H.ADDR_ANSW r.2
  let s := delay_ms 8 s
  let r := spi_transfer H.WRITE s
  let s := check_answer r.1 H.CMD_ANSW r.2
  let s := delay_ms 15 s
  let s := (List.range count).foldl
    (fun s i => (spi_transfer (values.getD i 0) s).2) s
  let s := delay_ms 12 s
  TSS463_UNSELECT s

/-- Source `register_get(address)`: returns the byte read and the new state. -/
def register_get (H : Header) (address : Nat) (s : Driver) : Nat × Driver :=
  let s := TSS463_SELECT s
  let s := delay_ms 4 s
  let r := spi_transfer address s
  let s := check_answer r.1 H.ADDR_ANSW r.2
  let s := delay_ms 8 s
  let r := spi_transfer H.READ s
  let s := check_answer r.1 H.CMD_ANSW r.2
  let s := delay_ms 15 s
  let r := spi_transfer 0xff s
  let value := r.1
  let s := delay_ms 12 r.2
  let s := TSS463_UNSELECT s
  (value, s)

/-- Source `registers_get(address, values, count)`: returns `value` (the answer to the
command byte), the updated array and the new state. -/
def registers_get (H : Header) (address : Nat) (values : Nat → Nat) (count : Nat)
    (s : Driver) : Nat × (Nat → Nat) × Driver :=
  let s := TSS463_SELECT s
  let s := delay_ms 4 s
  let r := spi_transfer address s
  let s := check_answer r.1 H.ADDR_ANSW r.2
  let s := delay_ms 8 s
  let r := spi_transfer H.READ s
  let value := r.1
  let s := check_answer value H.CMD_ANSW r.2
  let s := delay_ms 15 s
  let vs := (List.range count).foldl
    (fun (vs : (Nat → Nat) × Driver) i =>
      let r := spi_transfer 0xff vs.2
      (Function.update vs.1 i r.1, r.2)) (values, s)
  let s := delay_ms 12 vs.2
  let s := TSS463_UNSELECT s
  (value, vs.1, s)

/-! ## Channel registers -/

/-- Modelled from the spec: `Id2AndCommandRegister` of the header, laid out as
in the register diagram of `setup_channel`: `ID_T[3:0]` in bits 7..4, `EXT`
bit 3, `RAK` bit 2, `RNW` bit 1, `RTR` bit 0. -/
structure Id2AndCommandRegister where
  ID : Nat
  EXT : Nat
  RAK : Nat
  RNW : Nat
  RTR : Nat

/-- The byte seen through the `Value` member of the union. -/
def Id2AndCommandRegister.Value (r : Id2AndCommandRegister) : Nat :=
  r.ID * 16 + r.EXT * 8 + r.RAK * 4 + r.RNW * 2 + r.RTR

/-- Modelled from the spec: `MessagePointerRegister` of the header, laid out as
in the register diagram of `setup_channel`: `DRAK` bit 7, `M_P[6:0]` in bits
6..0. -/
structure MessagePointerRegister where
  DRAK : Nat
  M_P : Nat

/-- The byte seen through the `Value` member of the union. -/
def MessagePointerRegister.Value (r : MessagePointerRegister) : Nat :=
  r.DRAK * 128 + r.M_P

/-- Modelled from the spec: `MessageLengthAndStatusRegister` of the header, laid
out as in the register diagram of `setup_channel`: `M_L[4:0]` in bits 7..3,
`CHER` bit 2, `CHTx` bit 1, `CHRx` bit 0. -/
structure MessageLengthAndStatusRegister where
  M_L : Nat
  CHER : Nat
  CHTx : Nat
  CHRx : Nat

/-- The byte seen through the `Value` member of the union. -/
def MessageLengthAndStatusRegister.Value (r : MessageLengthAndStatusRegister) : Nat :=
  r.M_L * 8 + r.CHER * 4 + r.CHTx * 2 + r.CHRx

/-- Source `disable_channel(channelId)`. -/
def disable_channel (H : Header) (channelId : Nat) (s : Driver) : Driver :=
  let s := register_set H (u8 (CHANNEL_ADDR H channelId + 0)) 0x00 s
  let s := register_set H (u8 (CHANNEL_ADDR H channelId + 1)) 0x00 s
  let s := register_set H (u8 (CHANNEL_ADDR H channelId + 2)) 0x00 s
  let s := register_set H (u8 (CHANNEL_ADDR H channelId + 3)) 0x0F s
  let s := register_set H (u8 (CHANNEL_ADDR H channelId + 6)) 0x00 s
  register_set H (u8 (CHANNEL_ADDR H channelId + 7)) 0x00 s

/-- Source `setup_channel(channelId, id1, id2, id2AndCommand, messagePointer,
lengthAndStatus)`. -/
def setup_channel (H : Header) (channelId id1 id2 id2AndCommand messagePointer
    lengthAndStatus : Nat) (s : Driver) : Driver :=
  let s := register_set H (u8 (CHANNEL_ADDR H channelId + 0)) id1 s
  let s := register_set H (u8 (CHANNEL_ADDR H channelId + 1)) id2AndCommand s
  let s := register_set H (u8 (CHANNEL_ADDR H channelId + 2)) messagePointer s
  let s := register_set H (u8 (CHANNEL_ADDR H channelId + 3)) lengthAndStatus s
  let s := register_set H (u8 (CHANNEL_ADDR H channelId + 6)) id1 s
  register_set H (u8 (CHANNEL_ADDR H channelId + 7)) id2 s

/-! ## Channel message encoder -/

/-- Source `set_channel_for_transmit_message(channelId, id1, id2, values,
messageLength, requireAck)`. -/
def set_channel_for_transmit_message (H : Header) (channelId id1 id2 : Nat)
    (values : List Nat) (messageLength requireAck : Nat) (s : Driver) : Driver :=
  let id2Command : Id2AndCommandRegister :=
    { ID := bits 4 id2, RNW := 0, RTR := 0, EXT := 1, RAK := bits 1 requireAck }
  let messagePointer : MessagePointerRegister :=
    { DRAK := 0, M_P := bitsInt 7 (127 - ((messageLength : Int) + 1)) }
  let lengthAndStatus : MessageLengthAndStatusRegister :=
    { CHER := 0, CHRx := 0, CHTx := 0, M_L := bits 5 (messageLength + 1) }
  let addressOfDataToSendOnVAN := u8 (GETMAIL (messagePointer.M_P + 1))
  let s := registers_set H addressOfDataToSendOnVAN values messageLength s
  setup_channel H channelId id1 id2 id2Command.Value messagePointer.Value
    lengthAndStatus.Value s

/-- Source `set_channel_for_receive_message(channelId, id1, id2, messageLength)`. -/
def set_channel_for_receive_message (H : Header) (channelId id1 id2 messageLength : Nat)
    (s : Driver) : Driver :=
  let id2Command : Id2AndCommandRegister :=
    { ID := bits 4 id2, RNW := 0, RTR := 1, EXT := 1, RAK := 0 }
  let messagePointer : MessagePointerRegister :=
    { DRAK := 1, M_P := bits 7 (channelId * 30) }
  let lengthAndStatus : MessageLengthAndStatusRegister :=
    { CHER := 0, CHRx := 0, CHTx := 0, M_L := bits 5 (messageLength + 1) }
  setup_channel H channelId id1 id2 id2Command.Value messagePointer.Value
    lengthAndStatus.Value s

/-- Source `set_channel_for_reply_request_message_without_transmission(channelId, id1,
id2, messageLength)`. -/
def set_channel_for_reply_request_message_without_transmission (H : Header)
    (channelId id1 id2 messageLength : Nat) (s : Driver) : Driver :=
  let id2Command : Id2AndCommandRegister :=
    { ID := bits 4 id2, RNW := 1, RTR := 1, EXT := 1, RAK := 0 }
  let messagePointer : MessagePointerRegister :=
    { DRAK := 1, M_P := bits 7 (channelId * 30) }
  let lengthAndStatus : MessageLengthAndStatusRegister :=
    { CHER := 0, CHRx := 0, CHTx := 0, M_L := bits 5 (messageLength + 1) }
  setup_channel H channelId id1 id2 id2Command.Value messagePointer.Value
    lengthAndStatus.Value s

/-- Source `set_channel_for_reply_request_message(channelId, id1, id2,
messageLength)`. -/
def set_channel_for_reply_request_message (H : Header)
    (channelId id1 id2 messageLength : Nat) (s : Driver) : Driver :=
  let id2Command : Id2AndCommandRegister :=
    { ID := bits 4 id2, RNW := 1, RTR := 1, EXT := 1, RAK := 0 }
  let messagePointer : MessagePointerRegister :=
    { DRAK := 1, M_P := bits 7 (channelId * 30) }
  let lengthAndStatus : MessageLengthAndStatusRegister :=
    { CHER := 0, CHRx := 0, CHTx := 0, M_L := bits 5 (messageLength + 1) }
  setup_channel H channelId id1 id2 id2Command.Value messagePointer.Value
    lengthAndStatus.Value s

/-- Source `set_channel_for_immediate_reply_message(channelId, id1, id2, values,
messageLength)`. -/
def set_channel_for_immediate_reply_message (H : Header) (channelId id1 id2 : Nat)
    (values : List Nat) (messageLength : Nat) (s : Driver) : Driver :=
  let id2Command : Id2AndCommandRegister :=
    { ID := bits 4 id2, RNW := 1, RTR := 0, EXT := 1, RAK := 0 }
  let messagePointer : MessagePointerRegister :=
    { DRAK := 0, M_P := bits 7 (channelId * 30) }
  let lengthAndStatus : MessageLengthAndStatusRegister :=
    { CHER := 0, CHRx := 0, CHTx := 0, M_L := bits 5 (messageLength + 1) }
  let addressOfDataToSendOnVAN := u8 (GETMAIL (messagePointer.M_P + 1))
  let s := registers_set H addressOfDataToSendOnVAN values messageLength s
  setup_channel H channelId id1 id2 id2Command.Value messagePointer.Value
    lengthAndStatus.Value s

/-- Source `set_channel_for_deferred_reply_message(channelId, id1, id2, values,
messageLength)`. -/
def set_channel_for_deferred_reply_message (H : Header) (channelId id1 id2 : Nat)
    (values : List Nat) (messageLength : Nat) (s : Driver) : Driver :=
  let id2Command : Id2AndCommandRegister :=
    { ID := bits 4 id2, RNW := 1, RTR := 0, EXT := 1, RAK := 0 }
  let messagePointer : MessagePointerRegister :=
    { DRAK := 1, M_P := bits 7 (channelId * 30) }
  let lengthAndStatus : MessageLengthAndStatusRegister :=
    { CHER := 0, CHRx := 1, CHTx := 0, M_L := bits 5 (messageLength + 1) }
  let addressOfDataToSendOnVAN := u8 (GETMAIL (messagePointer.M_P + 1))
  let s := registers_set H addressOfDataToSendOnVAN values messageLength s
  setup_channel H channelId id1 id2 id2Command.Value messagePointer.Value
    lengthAndStatus.Value s

/-- Source `set_channel_for_reply_request_detection_message(channelId, id1, id2,
messageLength)`. -/
def set_channel_for_reply_request_detection_message (H : Header)
    (channelId id1 id2 messageLength : Nat) (s : Driver) : Driver :=
  let id2Command : Id2AndCommandRegister :=
    { ID := bits 4 id2, RNW := 1, RTR := 0, EXT := 1, RAK := 0 }
  let messagePointer : MessagePointerRegister :=
    { DRAK := 1, M_P := bits 7 (channelId * 30) }
  let lengthAndStatus : MessageLengthAndStatusRegister :=
    { CHER := 0, CHRx := 0, CHTx := 1, M_L := bits 5 (messageLength + 1) }
  setup_channel H channelId id1 id2 id2Command.Value messagePointer.Value
    lengthAndStatus.Value s

/-! ## Message ingest -/

/-- What `readMsgBuf` leaves in its two output parameters. -/
structure Received where
  len : Nat
  buf : Nat → Nat

/-- Source `readMsgBuf(channelId, len, buf)`.  `buf` is the caller's array on entry;
the local array `currentData` starts out as zeros. -/
def readMsgBuf (H : Header) (channelId : Nat) (buf : Nat → Nat) (s : Driver) :
    Received × Driver :=
  let r := register_get H (u8 (CHANNEL_ADDR H channelId + 0)) s
  let id1 := r.1
  let r := register_get H (u8 (CHANNEL_ADDR H channelId + 1)) r.2
  let id2 := r.1
  let r := register_get H (u8 (CHANNEL_ADDR H channelId + 2)) r.2
  let messageStatusLocationInMemory := u8 (ExtractBits r.1 7 1)
  let r := register_get H (u8 (GETMAIL messageStatusLocationInMemory)) r.2
  let messageStatusByte := r.1
  let messageLength := u8 (ExtractBits messageStatusByte 5 1)
  let _command := u8 (ExtractBits messageStatusByte 3 6)
  let addr := u8 (GETMAIL (channelId * 30 + 1))
  let g := registers_get H addr (fun _ => 0) messageLength r.2
  let currentData := g.2.1
  let buf := Function.update buf 0 id1
  let buf := Function.update buf 1 id2
  let buf := (List.range messageLength).foldl
    (fun b i => Function.update b (i + 2) (currentData i)) buf
  ({ len := u8 (messageLength + 2), buf := buf }, g.2.2)

/-- Source `getlastChannel()`. -/
def getlastChannel (H : Header) (s : Driver) : Nat × Driver :=
  let r := register_get H H.LASTMESSAGESTATUS s
  let lms := r.1
  let channelId := u8 (ExtractBits lms 3 1)
  (channelId, r.2)

/-! ## Observing the link -/

/-- The seven configure operations. -/
inductive Mode where
  | Transmit
  | Receive
  | ReplyRequestNoTx
  | ReplyRequest
  | ImmediateReply
  | DeferredReply
  | ReplyRequestDetection
  deriving DecidableEq, Repr

/-- The configure operation of a mode; `values` and `requireAck` are passed
only to the operations that take them. -/
def configure (H : Header) (m : Mode) (channelId id1 id2 : Nat) (values : List Nat)
    (messageLength requireAck : Nat) (s : Driver) : Driver :=
  match m with
  | Mode.Transmit =>
      set_channel_for_transmit_message H channelId id1 id2 values messageLength requireAck s
  | Mode.Receive =>
      set_channel_for_receive_message H channelId id1 id2 messageLength s
  | Mode.ReplyRequestNoTx =>
      set_channel_for_reply_request_message_without_transmission H channelId id1 id2
        messageLength s
  | Mode.ReplyRequest =>
      set_channel_for_reply_request_message H channelId id1 id2 messageLength s
  | Mode.ImmediateReply =>
      set_channel_for_immediate_reply_message H channelId id1 id2 values messageLength s
  | Mode.DeferredReply =>
      set_channel_for_deferred_reply_message H channelId id1 id2 values messageLength s
  | Mode.ReplyRequestDetection =>
      set_channel_for_reply_request_detection_message H channelId id1 id2 messageLength s

/-- The actions issued between a state `s` and a later state `t`. -/
def issued (s t : Driver) : List Action :=
  t.trace.drop s.trace.length

/-- Splits a list of actions into register transactions: for every
select..deselect scope, the bytes shifted out inside it, in order.  Waits are
skipped; bytes outside a scope and an unfinished scope are dropped. -/
def scopesFrom : Option (List Nat) → List Action → List (List Nat)
  | _, [] => []
  | _, Action.select :: t => scopesFrom (some []) t
  | some bs, Action.deselect :: t => bs :: scopesFrom none t
  | none, Action.deselect :: t => scopesFrom none t
  | some bs, Action.exchange b :: t => scopesFrom (some (bs ++ [b])) t
  | none, Action.exchange _ :: t => scopesFrom none t
  | cur, Action.delay _ :: t => scopesFrom cur t

/-- The register transactions of a list of actions. -/
def scopes (tr : List Action) : List (List Nat) :=
  scopesFrom none tr

/-- The six single-register writes of one channel block, as transactions
`[address, command, value]`, in the order offsets 0, 1, 2, 3, 6, 7. -/
def channelWrites (H : Header) (channelId b0 b1 b2 b3 b6 b7 : Nat) : List (List Nat) :=
  [[u8 (CHANNEL_ADDR H channelId + 0), H.WRITE, b0],
   [u8 (CHANNEL_ADDR H channelId + 1), H.WRITE, b1],
   [u8 (CHANNEL_ADDR H channelId + 2), H.WRITE, b2],
   [u8 (CHANNEL_ADDR H channelId + 3), H.WRITE, b3],
   [u8 (CHANNEL_ADDR H channelId + 6), H.WRITE, b6],
   [u8 (CHANNEL_ADDR H channelId + 7), H.WRITE, b7]]

/-- Fields of the identifier+command byte (offset 1). -/
def fieldID (b : Nat) : Nat := b / 16 % 16

def fieldEXT (b : Nat) : Nat := b / 8 % 2

def fieldRAK (b : Nat) : Nat := b / 4 % 2

def fieldRNW (b : Nat) : Nat := b / 2 % 2

def fieldRTR (b : Nat) : Nat := b % 2

/-- Fields of the message-pointer byte (offset 2). -/
def fieldDRAK (b : Nat) : Nat := b / 128 % 2

def fieldM_P (b : Nat) : Nat := b % 128

/-- Fields of the length+status byte (offset 3). -/
def fieldM_L (b : Nat) : Nat := b / 8 % 32

def fieldCHER (b : Nat) : Nat := b / 4 % 2

def fieldCHTx (b : Nat) : Nat := b / 2 % 2

def fieldCHRx (b : Nat) : Nat := b % 2

/-- A driver that has issued nothing, facing a chip that answers every
exchange with `answer k`. -/
def fresh (answer : Nat → Nat) : Driver :=
  { miso := answer, clock := 0, trace := [], error := 0 }

/-- Header constants used to evaluate the model on concrete inputs. -/
def sampleHeader : Header :=
  { ADDR_ANSW := 0xAA, CMD_ANSW := 0x55, WRITE := 0xE0, READ := 0x60,
    CHANNEL_BASE := 0x10, LASTMESSAGESTATUS := 0x0E }

/-- A driver that has issued nothing, facing a chip that answers `0` to every
exchange. -/
def idle : Driver :=
  fresh (fun _ => 0)

/-- A chip that answers the `k`-th exchange with the `k`-th byte of `l`, and
with `0` once `l` is used up. -/
def replay (l : List Nat) : Nat → Nat :=
  fun k => l.getD k 0

/-- Chip answers for one `readMsgBuf`: four single reads returning `0x9C`,
`0x49`, the pointer byte `0x96` and a status byte `status`, then a block read
returning 1, 2, 3, ... -/
def ingestAnswers (status : Nat) : List Nat :=
  [0xAA, 0x55, 0x9C, 0xAA, 0x55, 0x49, 0xAA, 0x55, 0x96, 0xAA, 0x55, status,
   0xAA, 0x55, 1, 2, 3, 4, 5, 6, 7, 8]

/-! ## Traces of the register primitives -/

/-- Actions of one `register_set`. -/
def writeActions (H : Header) (address value : Nat) : List Action :=
  [Action.select, Action.delay 4, Action.exchange address, Action.delay 8,
   Action.exchange H.WRITE, Action.delay 15, Action.exchange value, Action.delay 12,
   Action.deselect]

/-- Actions of one `registers_set` sending the bytes `vs`. -/
def blockWriteActions (H : Header) (address : Nat) (vs : List Nat) : List Action :=
  [Action.select, Action.delay 4, Action.exchange address, Action.delay 8,
   Action.exchange H.WRITE, Action.delay 15] ++ vs.map Action.exchange ++
  [Action.delay 12, Action.deselect]

/-- Actions of one `register_get`. -/
def readActions (H : Header) (address : Nat) : List Action :=
  [Action.select, Action.delay 4, Action.exchange address, Action.delay 8,
   Action.exchange H.READ, Action.delay 15, Action.exchange 0xff, Action.delay 12,
   Action.deselect]

/-- Actions of one `registers_get` of `count` bytes. -/
def blockReadActions (H : Header) (address count : Nat) : List Action :=
  [Action.select, Action.delay 4, Action.exchange address, Action.delay 8,
   Action.exchange H.READ, Action.delay 15] ++
  List.replicate count (Action.exchange 0xff) ++
  [Action.delay 12, Action.deselect]

/-! ## The link without the waits, and the chip as a register file -/

/-- The actions on the link proper: a list of actions with the waits left
out. -/
def busActions (tr : List Action) : List Action :=
  tr.filter (fun a => match a with
    | Action.delay _ => false
    | _ => true)

/-- Number of handshake answers that differ from the expected constant in a
register transaction started in state `s`: the answer to the address byte is
`s.miso s.clock`, the answer to the command byte is `s.miso (s.clock + 1)`. -/
def mismatches (H : Header) (s : Driver) : Nat :=
  (if s.miso s.clock ≠ H.ADDR_ANSW then 1 else 0)
    + (if s.miso (s.clock + 1) ≠ H.CMD_ANSW then 1 else 0)

/-- Register-file model of the chip: a map from 8-bit register address to
byte.  A block of data bytes is stored at consecutive addresses, the address
pointer of the chip incrementing after every byte. -/
def storeBlock : (Nat → Nat) → Nat → List Nat → (Nat → Nat)
  | rf, _, [] => rf
  | rf, address, v :: vs => storeBlock (Function.update rf (address % 256) v) (address + 1) vs

/-- Effect of one register transaction `address :: command :: data` on the
register file: a transaction whose command byte is `WRITE` stores its data
bytes, any other transaction leaves the registers as they are. -/
def applyTransaction (H : Header) (rf : Nat → Nat) (t : List Nat) : Nat → Nat :=
  match t with
  | address :: command :: data => if command = H.WRITE then storeBlock rf address data else rf
  | _ => rf

/-- The register file after the chip has seen the actions `tr`, starting from
the register file `rf`. -/
def chipAfter (H : Header) (rf : Nat → Nat) (tr : List Action) : Nat → Nat :=
  (scopes tr).foldl (applyTransaction H) rf

/-- Chip answers for one `readMsgBuf` against a chip whose pointer register
holds `pointer` and whose status byte is `status`; the block read returns
1, 2, 3, ... -/
def ingestAnswersAt (pointer status : Nat) : List Nat :=
  [0xAA, 0x55, 0x9C, 0xAA, 0x55, 0x49, 0xAA, 0x55, pointer, 0xAA, 0x55, status,
   0xAA, 0x55, 1, 2, 3, 4, 5, 6, 7, 8]

/-! ## Public operations and selection scopes -/

/-- A call of one public operation of the driver, with its arguments: the four
register primitives, `disable_channel`, the seven configure operations,
`readMsgBuf` and `getlastChannel`. -/
inductive Call where
  | registerSet (address value : Nat)
  | registersSet (address : Nat) (values : List Nat) (count : Nat)
  | registerGet (address : Nat)
  | registersGet (address : Nat) (values : Nat → Nat) (count : Nat)
  | disableChannel (channelId : Nat)
  | configureChannel (m : Mode) (channelId id1 id2 : Nat) (values : List Nat)
      (messageLength requireAck : Nat)
  | readMessage (channelId : Nat) (buf : Nat → Nat)
  | lastChannel

/-- The driver state after a call; results returned to the caller are
dropped. -/
def runCall (H : Header) (call : Call) (s : Driver) : Driver :=
  match call with
  | Call.registerSet address value => register_set H address value s
  | Call.registersSet address values count => registers_set H address values count s
  | Call.registerGet address => (register_get H address s).2
  | Call.registersGet address values count => (registers_get H address values count s).2.2
  | Call.disableChannel channelId => disable_channel H channelId s
  | Call.configureChannel m channelId id1 id2 values messageLength requireAck =>
      configure H m channelId id1 id2 values messageLength requireAck s
  | Call.readMessage channelId buf => (readMsgBuf H channelId buf s).2
  | Call.lastChannel => (getlastChannel H s).2

/-- Checks the selection discipline of a list of actions, `inside` telling
whether the chip is selected at the start: a select is allowed only while
deselected, a deselect and a byte exchange only while selected, a wait
anywhere, and the list must end deselected. -/
def scopedFrom : Bool → List Action → Bool
  | inside, [] => !inside
  | inside, Action.select :: t => !inside && scopedFrom true t
  | inside, Action.deselect :: t => inside && scopedFrom false t
  | inside, Action.exchange _ :: t => inside && scopedFrom inside t
  | inside, Action.delay _ :: t => scopedFrom inside t

/-- A list of actions in which select and deselect strictly alternate,
starting deselected and ending deselected, with every byte exchange between a
select and the deselect that follows it. -/
def wellScoped (tr : List Action) : Bool :=
  scopedFrom false tr

/-- A list of actions that starts with a select, ends with a deselect and can
be followed by any further actions without changing the selection discipline
of those. -/
def Bracketed (d : List Action) : Prop :=
  (∀ t, scopedFrom false (d ++ t) = scopedFrom false t) ∧
  d.head? = some Action.select ∧ d.getLast? = some Action.deselect

theorem issued_of_trace (s t : Driver) (d : List Action) (h : t.trace = s.trace ++ d) :
    issued s t = d := by
  simp [issued, h]

theorem register_set_trace (H : Header) (a v : Nat) (s : Driver) :
    (register_set H a v s).trace = s.trace ++ writeActions H a v := by
  simp [register_set, writeActions, TSS463_SELECT, TSS463_UNSELECT, delay_ms,
    spi_transfer, check_answer]

theorem register_set_miso (H : Header) (a v : Nat) (s : Driver) :
    (register_set H a v s).miso = s.miso := by
  simp [register_set, TSS463_SELECT, TSS463_UNSELECT, delay_ms, spi_transfer, check_answer]

theorem register_set_clock (H : Header) (a v : Nat) (s : Driver) :
    (register_set H a v s).clock = s.clock + 3 := by
  simp [register_set, TSS463_SELECT, TSS463_UNSELECT, delay_ms, spi_transfer, check_answer]

theorem send_loop_trace (f : Nat → Nat) (l : List Nat) (s : Driver) :
    (l.foldl (fun s i => (spi_transfer (f i) s).2) s).trace
      = s.trace ++ l.map (fun i => Action.exchange (f i)) := by
  induction l generalizing s with
  | nil => simp
  | cons i l ih =>
    simp only [List.foldl_cons, List.map_cons]
    rw [ih]
    simp [spi_transfer]

theorem registers_set_trace (H : Header) (a : Nat) (values : List Nat) (count : Nat)
    (s : Driver) :
    (registers_set H a values count s).trace
      = s.trace ++ blockWriteActions H a ((List.range count).map (fun i => values.getD i 0)) := by
  simp only [registers_set, TSS463_UNSELECT, delay_ms, send_loop_trace]
  simp [blockWriteActions, TSS463_SELECT, delay_ms, spi_transfer, check_answer,
    Function.comp_def]

theorem scopesFrom_exchanges (bs vs : List Nat) (t : List Action) :
    scopesFrom (some bs) (vs.map Action.exchange ++ t) = scopesFrom (some (bs ++ vs)) t := by
  induction vs generalizing bs with
  | nil => simp
  | cons v vs ih => simp [scopesFrom, ih]

theorem scopes_writeActions (H : Header) (a v : Nat) (t : List Action) :
    scopesFrom none (writeActions H a v ++ t) = [a, H.WRITE, v] :: scopesFrom none t := by
  simp [writeActions, scopesFrom]

theorem scopes_blockWriteActions (H : Header) (a : Nat) (vs : List Nat) (t : List Action) :
    scopesFrom none (blockWriteActions H a vs ++ t)
      = (a :: H.WRITE :: vs) :: scopesFrom none t := by
  simp [blockWriteActions, scopesFrom, scopesFrom_exchanges]

theorem setup_channel_trace (H : Header) (c id1 id2 b1 b2 b3 : Nat) (s : Driver) :
    (setup_channel H c id1 id2 b1 b2 b3 s).trace
      = s.trace ++ (writeActions H (u8 (CHANNEL_ADDR H c + 0)) id1
        ++ (writeActions H (u8 (CHANNEL_ADDR H c + 1)) b1
        ++ (writeActions H (u8 (CHANNEL_ADDR H c + 2)) b2
        ++ (writeActions H (u8 (CHANNEL_ADDR H c + 3)) b3
        ++ (writeActions H (u8 (CHANNEL_ADDR H c + 6)) id1
        ++ writeActions H (u8 (CHANNEL_ADDR H c + 7)) id2))))) := by
  simp only [setup_channel, register_set_trace, List.append_assoc]

theorem setup_channel_scopes (H : Header) (c id1 id2 b1 b2 b3 : Nat) (s : Driver) :
    scopes (issued s (setup_channel H c id1 id2 b1 b2 b3 s))
      = channelWrites H c id1 b1 b2 b3 id1 id2 := by
  rw [issued_of_trace _ _ _ (setup_channel_trace H c id1 id2 b1 b2 b3 s)]
  simp only [scopes, List.append_assoc, scopes_writeActions, channelWrites]
  have h := scopes_writeActions H (u8 (CHANNEL_ADDR H c + 7)) id2 []
  simp only [List.append_nil] at h
  rw [h]
  simp [scopesFrom]

theorem staged_scopes (H : Header) (a : Nat) (values : List Nat) (L c id1 id2 b1 b2 b3 : Nat)
    (s : Driver) :
    scopes (issued s (setup_channel H c id1 id2 b1 b2 b3 (registers_set H a values L s)))
      = (a :: H.WRITE :: (List.range L).map (fun i => values.getD i 0))
          :: channelWrites H c id1 b1 b2 b3 id1 id2 := by
  have h : (setup_channel H c id1 id2 b1 b2 b3 (registers_set H a values L s)).trace
      = s.trace ++ (blockWriteActions H a ((List.range L).map (fun i => values.getD i 0))
          ++ issued (registers_set H a values L s)
              (setup_channel H c id1 id2 b1 b2 b3 (registers_set H a values L s))) := by
    rw [issued_of_trace _ _ _ (setup_channel_trace H c id1 id2 b1 b2 b3 _),
      setup_channel_trace, registers_set_trace, List.append_assoc]
  rw [issued_of_trace _ _ _ h, scopes, scopes_blockWriteActions]
  have h2 := setup_channel_scopes H c id1 id2 b1 b2 b3 (registers_set H a values L s)
  rw [scopes] at h2
  rw [h2]

theorem range_getD (values : List Nat) :
    (List.range values.length).map (fun i => values.getD i 0) = values := by
  apply List.ext_getElem
  · simp
  · intro i h1 h2
    simp [List.getD_eq_getElem?_getD, List.getElem?_eq_getElem h2]

theorem bitsInt_lt (w : Nat) (v : Int) : bitsInt w v < 2 ^ w := by
  have hpos : (0 : Int) < 2 ^ w := by positivity
  have h1 := Int.emod_lt_of_pos v hpos
  have h2 := Int.emod_nonneg v (ne_of_gt hpos)
  unfold bitsInt
  zify
  rw [Int.toNat_of_nonneg h2]
  exact_mod_cast h1

theorem bitsInt_transmit (L : Nat) (h : L ≤ 126) :
    bitsInt 7 (127 - ((L : Int) + 1)) = 126 - L := by
  unfold bitsInt
  have h0 : (0 : Int) ≤ 127 - ((L : Int) + 1) := by omega
  have h1 : (127 - ((L : Int) + 1)) % 2 ^ 7 = 127 - ((L : Int) + 1) := by
    apply Int.emod_eq_of_lt h0
    norm_num
    omega
  rw [h1]
  omega

theorem transmit_scopes (H : Header) (c id1 id2 : Nat) (values : List Nat) (L ack : Nat)
    (s : Driver) :
    scopes (issued s (set_channel_for_transmit_message H c id1 id2 values L ack s))
      = (u8 (GETMAIL (bitsInt 7 (127 - ((L : Int) + 1)) + 1)) :: H.WRITE
            :: (List.range L).map (fun i => values.getD i 0))
          :: channelWrites H c id1 (bits 4 id2 * 16 + 1 * 8 + bits 1 ack * 4 + 0 * 2 + 0)
              (0 * 128 + bitsInt 7 (127 - ((L : Int) + 1)))
              (bits 5 (L + 1) * 8 + 0 * 4 + 0 * 2 + 0) id1 id2 := by
  simp only [set_channel_for_transmit_message, Id2AndCommandRegister.Value, MessagePointerRegister.Value,
    MessageLengthAndStatusRegister.Value]
  exact staged_scopes H _ values L c id1 id2 _ _ _ s

theorem receive_scopes (H : Header) (c id1 id2 L : Nat) (s : Driver) :
    scopes (issued s (set_channel_for_receive_message H c id1 id2 L s))
      = channelWrites H c id1 (bits 4 id2 * 16 + 1 * 8 + 0 * 4 + 0 * 2 + 1)
          (1 * 128 + bits 7 (c * 30)) (bits 5 (L + 1) * 8 + 0 * 4 + 0 * 2 + 0) id1 id2 := by
  simp only [set_channel_for_receive_message, Id2AndCommandRegister.Value, MessagePointerRegister.Value,
    MessageLengthAndStatusRegister.Value]
  exact setup_channel_scopes H c id1 id2 _ _ _ s

theorem reply_request_no_tx_scopes (H : Header) (c id1 id2 L : Nat) (s : Driver) :
    scopes (issued s
        (set_channel_for_reply_request_message_without_transmission H c id1 id2 L s))
      = channelWrites H c id1 (bits 4 id2 * 16 + 1 * 8 + 0 * 4 + 1 * 2 + 1)
          (1 * 128 + bits 7 (c * 30)) (bits 5 (L + 1) * 8 + 0 * 4 + 0 * 2 + 0) id1 id2 := by
  simp only [set_channel_for_reply_request_message_without_transmission, Id2AndCommandRegister.Value, MessagePointerRegister.Value,
    MessageLengthAndStatusRegister.Value]
  exact setup_channel_scopes H c id1 id2 _ _ _ s

theorem reply_request_scopes (H : Header) (c id1 id2 L : Nat) (s : Driver) :
    scopes (issued s (set_channel_for_reply_request_message H c id1 id2 L s))
      = channelWrites H c id1 (bits 4 id2 * 16 + 1 * 8 + 0 * 4 + 1 * 2 + 1)
          (1 * 128 + bits 7 (c * 30)) (bits 5 (L + 1) * 8 + 0 * 4 + 0 * 2 + 0) id1 id2 := by
  simp only [set_channel_for_reply_request_message, Id2AndCommandRegister.Value, MessagePointerRegister.Value,
    MessageLengthAndStatusRegister.Value]
  exact setup_channel_scopes H c id1 id2 _ _ _ s

theorem immediate_reply_scopes (H : Header) (c id1 id2 : Nat) (values : List Nat) (L : Nat)
    (s : Driver) :
    scopes (issued s (set_channel_for_immediate_reply_message H c id1 id2 values L s))
      = (u8 (GETMAIL (bits 7 (c * 30) + 1)) :: H.WRITE
            :: (List.range L).map (fun i => values.getD i 0))
          :: channelWrites H c id1 (bits 4 id2 * 16 + 1 * 8 + 0 * 4 + 1 * 2 + 0)
              (0 * 128 + bits 7 (c * 30)) (bits 5 (L + 1) * 8 + 0 * 4 + 0 * 2 + 0) id1 id2 := by
  simp only [set_channel_for_immediate_reply_message, Id2AndCommandRegister.Value, MessagePointerRegister.Value,
    MessageLengthAndStatusRegister.Value]
  exact staged_scopes H _ values L c id1 id2 _ _ _ s

theorem deferred_reply_scopes (H : Header) (c id1 id2 : Nat) (values : List Nat) (L : Nat)
    (s : Driver) :
    scopes (issued s (set_channel_for_deferred_reply_message H c id1 id2 values L s))
      = (u8 (GETMAIL (bits 7 (c * 30) + 1)) :: H.WRITE
            :: (List.range L).map (fun i => values.getD i 0))
          :: channelWrites H c id1 (bits 4 id2 * 16 + 1 * 8 + 0 * 4 + 1 * 2 + 0)
              (1 * 128 + bits 7 (c * 30)) (bits 5 (L + 1) * 8 + 0 * 4 + 0 * 2 + 1) id1 id2 := by
  simp only [set_channel_for_deferred_reply_message, Id2AndCommandRegister.Value, MessagePointerRegister.Value,
    MessageLengthAndStatusRegister.Value]
  exact staged_scopes H _ values L c id1 id2 _ _ _ s

theorem reply_request_detection_scopes (H : Header) (c id1 id2 L : Nat) (s : Driver) :
    scopes (issued s (set_channel_for_reply_request_detection_message H c id1 id2 L s))
      = channelWrites H c id1 (bits 4 id2 * 16 + 1 * 8 + 0 * 4 + 1 * 2 + 0)
          (1 * 128 + bits 7 (c * 30)) (bits 5 (L + 1) * 8 + 0 * 4 + 1 * 2 + 0) id1 id2 := by
  simp only [set_channel_for_reply_request_detection_message, Id2AndCommandRegister.Value, MessagePointerRegister.Value,
    MessageLengthAndStatusRegister.Value]
  exact setup_channel_scopes H c id1 id2 _ _ _ s

theorem staged_exists (H : Header) (X : List (List Nat)) (c id1 id2 A W : Nat)
    (vs : List Nat) (B1 B2 B3 : Nat)
    (h : X = (A :: W :: vs) :: channelWrites H c id1 B1 B2 B3 id1 id2)
    (ha : A = 0x80 + fieldM_P B2 + 1) :
    ∃ b1 b2 b3, X = ((0x80 + fieldM_P b2 + 1) :: W :: vs)
      :: channelWrites H c id1 b1 b2 b3 id1 id2 :=
  ⟨B1, B2, B3, by rw [h, ha]⟩

theorem pointer_even (c : Nat) : bits 7 (c * 30) ≤ 126 := by
  simp only [bits, Nat.reducePow]
  omega

/-! ## Channel message encoder: pointer, flags, length -/

/-- C1 (as amended): for every channel index, each of the six non-Transmit
configure operations ends with the six channel-register writes, and the byte
written to offset 2 has an `M_P` field equal to `channelIndex * 30` reduced
modulo 128; that is `channelIndex * 30` itself for the channel indices 0..4. -/
theorem C1_pointer_is_channel_times_30_mod_128 (H : Header) (m : Mode) (c id1 id2 : Nat)
    (values : List Nat) (L ack : Nat) (s : Driver) (hm : m ≠ Mode.Transmit) :
    ∃ pre b1 b2 b3, pre.length ≤ 1 ∧
      scopes (issued s (configure H m c id1 id2 values L ack s))
        = pre ++ channelWrites H c id1 b1 b2 b3 id1 id2 ∧
      fieldM_P b2 = (c * 30) % 128 ∧ (c ≤ 4 → fieldM_P b2 = c * 30) := by
  cases m with
  | Transmit => exact absurd rfl hm
  | Receive =>
    refine ⟨[], _, _, _, by simp, by simpa [configure] using receive_scopes H c id1 id2 L s, ?_⟩
    simp only [fieldM_P, bits, Nat.reducePow]; omega
  | ReplyRequestNoTx =>
    refine ⟨[], _, _, _, by simp,
      by simpa [configure] using reply_request_no_tx_scopes H c id1 id2 L s, ?_⟩
    simp only [fieldM_P, bits, Nat.reducePow]; omega
  | ReplyRequest =>
    refine ⟨[], _, _, _, by simp,
      by simpa [configure] using reply_request_scopes H c id1 id2 L s, ?_⟩
    simp only [fieldM_P, bits, Nat.reducePow]; omega
  | ImmediateReply =>
    refine ⟨[_], _, _, _, by simp,
      by simpa [configure] using immediate_reply_scopes H c id1 id2 values L s, ?_⟩
    simp only [fieldM_P, bits, Nat.reducePow]; omega
  | DeferredReply =>
    refine ⟨[_], _, _, _, by simp,
      by simpa [configure] using deferred_reply_scopes H c id1 id2 values L s, ?_⟩
    simp only [fieldM_P, bits, Nat.reducePow]; omega
  | ReplyRequestDetection =>
    refine ⟨[], _, _, _, by simp,
      by simpa [configure] using reply_request_detection_scopes H c id1 id2 L s, ?_⟩
    simp only [fieldM_P, bits, Nat.reducePow]; omega

/-- C1, witness: Receive on channel 3. -/
theorem C1_pointer_is_channel_times_30_mod_128_witness :
    Mode.Receive ≠ Mode.Transmit ∧
    ∃ pre b1 b2 b3, pre.length ≤ 1 ∧
      scopes (issued idle (configure sampleHeader Mode.Receive 3 0x1A 4 [] 8 0 idle))
        = pre ++ channelWrites sampleHeader 3 0x1A b1 b2 b3 0x1A 4 ∧
      fieldM_P b2 = (3 * 30) % 128 ∧ (3 ≤ 4 → fieldM_P b2 = 3 * 30) :=
  ⟨by decide,
   C1_pointer_is_channel_times_30_mod_128 sampleHeader Mode.Receive 3 0x1A 4 [] 8 0 idle
     (by decide)⟩

/-- C1, counterexample: Receive on channel 5 writes the pointer byte 150 to
offset 2, whose `M_P` field is 22 and not `5 * 30`. -/
theorem C1_counterexample_channel_5 :
    scopes (issued idle (configure sampleHeader Mode.Receive 5 0 0 [] 0 0 idle))
      = channelWrites sampleHeader 5 0 9 150 8 0 0 ∧
    fieldM_P 150 = 22 ∧ fieldM_P 150 ≠ 5 * 30 := by
  decide

/-- C2 (as amended): `disable_channel(c)` issues exactly six register writes, to
offsets 0, 1, 2, 3, 6 and 7 of the block of channel `c`; it writes `0x00` to
offsets 0, 1, 2, 6 and 7 (so `RNW = RTR = 0`, pointer and both mask bytes
zero) and `0x0F` to offset 3, that is `M_L = 1` and `CHER = CHTx = CHRx = 1`. -/
theorem C2_disable_channel_writes (H : Header) (c : Nat) (s : Driver) :
    scopes (issued s (disable_channel H c s)) = channelWrites H c 0 0 0 0x0F 0 0 ∧
    fieldRNW 0 = 0 ∧ fieldRTR 0 = 0 ∧ fieldM_L 0x0F = 1 ∧ fieldCHER 0x0F = 1 ∧
    fieldCHTx 0x0F = 1 ∧ fieldCHRx 0x0F = 1 := by
  refine ⟨?_, by decide, by decide, by decide, by decide, by decide, by decide⟩
  have h : (disable_channel H c s).trace
      = s.trace ++ (writeActions H (u8 (CHANNEL_ADDR H c + 0)) 0
        ++ (writeActions H (u8 (CHANNEL_ADDR H c + 1)) 0
        ++ (writeActions H (u8 (CHANNEL_ADDR H c + 2)) 0
        ++ (writeActions H (u8 (CHANNEL_ADDR H c + 3)) 0x0F
        ++ (writeActions H (u8 (CHANNEL_ADDR H c + 6)) 0
        ++ (writeActions H (u8 (CHANNEL_ADDR H c + 7)) 0 ++ [])))))) := by
    simp only [disable_channel, register_set_trace, List.append_assoc, List.append_nil]
  rw [issued_of_trace _ _ _ h]
  simp [scopes, scopes_writeActions, channelWrites, scopesFrom]

/-- C2, counterexample: disabling channel 0 writes `0x0F`, not `0x00`, to
offset 3, so `CHTx` and `CHRx` are 1 in the byte written. -/
theorem C2_counterexample_offset_3 :
    scopes (issued idle (disable_channel sampleHeader 0 idle))
      = channelWrites sampleHeader 0 0 0 0 0x0F 0 0 ∧
    scopes (issued idle (disable_channel sampleHeader 0 idle))
      ≠ channelWrites sampleHeader 0 0 0 0 0x00 0 0 ∧
    fieldCHTx 0x0F ≠ 0 ∧ fieldCHRx 0x0F ≠ 0 := by
  decide

/-- C4: `set_channel_for_transmit_message` stages one block and then writes the
six channel registers, with `EXT = 1`, `RAK = requireAck`, `RNW = 0`, `RTR = 0`
in the byte at offset 1, `DRAK = 0` in the byte at offset 2 and
`CHER = CHTx = CHRx = 0` in the byte at offset 3, whatever the channel, `id1`,
`id2`, payload and length are. -/
theorem C4_transmit_flags (H : Header) (c id1 id2 : Nat) (values : List Nat) (L ack : Nat)
    (s : Driver) (hack : ack ≤ 1) :
    ∃ blk b1 b2 b3,
      scopes (issued s (set_channel_for_transmit_message H c id1 id2 values L ack s))
        = blk :: channelWrites H c id1 b1 b2 b3 id1 id2 ∧
      fieldEXT b1 = 1 ∧ fieldRAK b1 = ack ∧ fieldRNW b1 = 0 ∧ fieldRTR b1 = 0 ∧
      fieldDRAK b2 = 0 ∧
      fieldCHER b3 = 0 ∧ fieldCHTx b3 = 0 ∧ fieldCHRx b3 = 0 := by
  refine ⟨_, _, _, _, transmit_scopes H c id1 id2 values L ack s, ?_⟩
  have hp := bitsInt_lt 7 (127 - ((L : Int) + 1))
  simp only [fieldEXT, fieldRAK, fieldRNW, fieldRTR, fieldDRAK, fieldCHER, fieldCHTx,
    fieldCHRx, bits, Nat.reducePow] at hp ⊢
  omega

/-- C4, witness: Transmit on channel 2 with acknowledgement required. -/
theorem C4_transmit_flags_witness :
    1 ≤ 1 ∧
    ∃ blk b1 b2 b3,
      scopes (issued idle
          (set_channel_for_transmit_message sampleHeader 2 0x1A 4 [0x11, 0x22, 0x33] 3 1 idle))
        = blk :: channelWrites sampleHeader 2 0x1A b1 b2 b3 0x1A 4 ∧
      fieldEXT b1 = 1 ∧ fieldRAK b1 = 1 ∧ fieldRNW b1 = 0 ∧ fieldRTR b1 = 0 ∧
      fieldDRAK b2 = 0 ∧
      fieldCHER b3 = 0 ∧ fieldCHTx b3 = 0 ∧ fieldCHRx b3 = 0 :=
  ⟨le_refl 1,
   C4_transmit_flags sampleHeader 2 0x1A 4 [0x11, 0x22, 0x33] 3 1 idle (le_refl 1)⟩

/-- C5: the three request-type configure operations issue exactly the six
channel-register writes, with `EXT = 1`, `RAK = 0`, `RTR = 1`, `DRAK = 1`,
`CHTx = 0`, `CHRx = 0`, and `RNW = 0` for Receive, `RNW = 1` for the two
reply-request modes; the low nibble of the byte at offset 1 is `0x9` for
Receive and `0xB` for the reply-request modes, whatever `id2` is. -/
theorem C5_request_flags (H : Header) (m : Mode) (c id1 id2 : Nat) (values : List Nat)
    (L ack : Nat) (s : Driver)
    (hm : m = Mode.Receive ∨ m = Mode.ReplyRequestNoTx ∨ m = Mode.ReplyRequest) :
    ∃ b1 b2 b3,
      scopes (issued s (configure H m c id1 id2 values L ack s))
        = channelWrites H c id1 b1 b2 b3 id1 id2 ∧
      fieldEXT b1 = 1 ∧ fieldRAK b1 = 0 ∧ fieldRTR b1 = 1 ∧
      fieldRNW b1 = (if m = Mode.Receive then 0 else 1) ∧
      b1 % 16 = (if m = Mode.Receive then 0x9 else 0xB) ∧
      fieldDRAK b2 = 1 ∧ fieldCHTx b3 = 0 ∧ fieldCHRx b3 = 0 := by
  rcases hm with hm | hm | hm <;> subst hm
  · refine ⟨_, _, _, receive_scopes H c id1 id2 L s, ?_⟩
    have hx : c * 30 % 128 < 128 := Nat.mod_lt _ (by norm_num)
    simp only [fieldEXT, fieldRAK, fieldRNW, fieldRTR, fieldDRAK, fieldCHTx, fieldCHRx, bits,
      Nat.reducePow, if_true]
    generalize c * 30 % 128 = x at hx ⊢
    omega
  · refine ⟨_, _, _, reply_request_no_tx_scopes H c id1 id2 L s, ?_⟩
    have hx : c * 30 % 128 < 128 := Nat.mod_lt _ (by norm_num)
    simp only [fieldEXT, fieldRAK, fieldRNW, fieldRTR, fieldDRAK, fieldCHTx, fieldCHRx, bits,
      Nat.reducePow, reduceCtorEq, if_false]
    generalize c * 30 % 128 = x at hx ⊢
    omega
  · refine ⟨_, _, _, reply_request_scopes H c id1 id2 L s, ?_⟩
    have hx : c * 30 % 128 < 128 := Nat.mod_lt _ (by norm_num)
    simp only [fieldEXT, fieldRAK, fieldRNW, fieldRTR, fieldDRAK, fieldCHTx, fieldCHRx, bits,
      Nat.reducePow, reduceCtorEq, if_false]
    generalize c * 30 % 128 = x at hx ⊢
    omega

/-- C5, witness: Receive on channel 1 with `id2 = 0xC4`, which is above 15. -/
theorem C5_request_flags_witness :
    (Mode.Receive = Mode.Receive ∨ Mode.Receive = Mode.ReplyRequestNoTx
      ∨ Mode.Receive = Mode.ReplyRequest) ∧
    ∃ b1 b2 b3,
      scopes (issued idle (configure sampleHeader Mode.Receive 1 0x9C 0xC4 [] 8 0 idle))
        = channelWrites sampleHeader 1 0x9C b1 b2 b3 0x9C 0xC4 ∧
      fieldEXT b1 = 1 ∧ fieldRAK b1 = 0 ∧ fieldRTR b1 = 1 ∧
      fieldRNW b1 = (if Mode.Receive = Mode.Receive then 0 else 1) ∧
      b1 % 16 = (if Mode.Receive = Mode.Receive then 0x9 else 0xB) ∧
      fieldDRAK b2 = 1 ∧ fieldCHTx b3 = 0 ∧ fieldCHRx b3 = 0 :=
  ⟨Or.inl rfl,
   C5_request_flags sampleHeader Mode.Receive 1 0x9C 0xC4 [] 8 0 idle (Or.inl rfl)⟩

/-- C6: the three reply-type configure operations end with the six
channel-register writes, with `EXT = 1`, `RAK = 0`, `RNW = 1`, `RTR = 0`;
ImmediateReply has `DRAK = 0`, `CHTx = 0`, `CHRx = 0`, DeferredReply has
`DRAK = 1`, `CHTx = 0`, `CHRx = 1`, and ReplyRequestDetection has `DRAK = 1`,
`CHTx = 1`, `CHRx = 0`. -/
theorem C6_reply_flags (H : Header) (m : Mode) (c id1 id2 : Nat) (values : List Nat)
    (L ack : Nat) (s : Driver)
    (hm : m = Mode.ImmediateReply ∨ m = Mode.DeferredReply ∨ m = Mode.ReplyRequestDetection) :
    ∃ pre b1 b2 b3, pre.length ≤ 1 ∧
      scopes (issued s (configure H m c id1 id2 values L ack s))
        = pre ++ channelWrites H c id1 b1 b2 b3 id1 id2 ∧
      fieldEXT b1 = 1 ∧ fieldRAK b1 = 0 ∧ fieldRNW b1 = 1 ∧ fieldRTR b1 = 0 ∧
      (m = Mode.ImmediateReply → fieldDRAK b2 = 0 ∧ fieldCHTx b3 = 0 ∧ fieldCHRx b3 = 0) ∧
      (m = Mode.DeferredReply → fieldDRAK b2 = 1 ∧ fieldCHTx b3 = 0 ∧ fieldCHRx b3 = 1) ∧
      (m = Mode.ReplyRequestDetection →
        fieldDRAK b2 = 1 ∧ fieldCHTx b3 = 1 ∧ fieldCHRx b3 = 0) := by
  rcases hm with hm | hm | hm <;> subst hm
  · refine ⟨[_], _, _, _, by simp, immediate_reply_scopes H c id1 id2 values L s, ?_⟩
    have hx : c * 30 % 128 < 128 := Nat.mod_lt _ (by norm_num)
    simp only [fieldEXT, fieldRAK, fieldRNW, fieldRTR, fieldDRAK, fieldCHTx, fieldCHRx, bits,
      Nat.reducePow, reduceCtorEq, false_implies, true_implies, and_true, true_and]
    generalize c * 30 % 128 = x at hx ⊢
    omega
  · refine ⟨[_], _, _, _, by simp, deferred_reply_scopes H c id1 id2 values L s, ?_⟩
    have hx : c * 30 % 128 < 128 := Nat.mod_lt _ (by norm_num)
    simp only [fieldEXT, fieldRAK, fieldRNW, fieldRTR, fieldDRAK, fieldCHTx, fieldCHRx, bits,
      Nat.reducePow, reduceCtorEq, false_implies, true_implies, and_true, true_and]
    generalize c * 30 % 128 = x at hx ⊢
    omega
  · refine ⟨[], _, _, _, by simp, reply_request_detection_scopes H c id1 id2 L s, ?_⟩
    have hx : c * 30 % 128 < 128 := Nat.mod_lt _ (by norm_num)
    simp only [fieldEXT, fieldRAK, fieldRNW, fieldRTR, fieldDRAK, fieldCHTx, fieldCHRx, bits,
      Nat.reducePow, reduceCtorEq, false_implies, true_implies, and_true, true_and]
    generalize c * 30 % 128 = x at hx ⊢
    omega

/-- C6, witness: DeferredReply on channel 1. -/
theorem C6_reply_flags_witness :
    (Mode.DeferredReply = Mode.ImmediateReply ∨ Mode.DeferredReply = Mode.DeferredReply
      ∨ Mode.DeferredReply = Mode.ReplyRequestDetection) ∧
    ∃ pre b1 b2 b3, pre.length ≤ 1 ∧
      scopes (issued idle
          (configure sampleHeader Mode.DeferredReply 1 0x9C 4 [0x01, 0x02] 2 0 idle))
        = pre ++ channelWrites sampleHeader 1 0x9C b1 b2 b3 0x9C 4 ∧
      fieldEXT b1 = 1 ∧ fieldRAK b1 = 0 ∧ fieldRNW b1 = 1 ∧ fieldRTR b1 = 0 ∧
      (Mode.DeferredReply = Mode.ImmediateReply →
        fieldDRAK b2 = 0 ∧ fieldCHTx b3 = 0 ∧ fieldCHRx b3 = 0) ∧
      (Mode.DeferredReply = Mode.DeferredReply →
        fieldDRAK b2 = 1 ∧ fieldCHTx b3 = 0 ∧ fieldCHRx b3 = 1) ∧
      (Mode.DeferredReply = Mode.ReplyRequestDetection →
        fieldDRAK b2 = 1 ∧ fieldCHTx b3 = 1 ∧ fieldCHRx b3 = 0) :=
  ⟨Or.inr (Or.inl rfl),
   C6_reply_flags sampleHeader Mode.DeferredReply 1 0x9C 4 [0x01, 0x02] 2 0 idle
     (Or.inr (Or.inl rfl))⟩

/-- C7: for Transmit, ImmediateReply and DeferredReply and every payload of at
most 29 bytes, the first register transaction issued is a block write of
exactly the payload bytes, in order, to address `0x80 + M_P + 1`, where `M_P`
is the pointer field of the byte the same call writes to offset 2; the six
channel-register writes are the transactions that follow it. -/
theorem C7_payload_staged_first (H : Header) (m : Mode) (c id1 id2 : Nat)
    (values : List Nat) (ack : Nat) (s : Driver)
    (hm : m = Mode.Transmit ∨ m = Mode.ImmediateReply ∨ m = Mode.DeferredReply)
    (hL : values.length ≤ 29) :
    ∃ b1 b2 b3,
      scopes (issued s (configure H m c id1 id2 values values.length ack s))
        = ((0x80 + fieldM_P b2 + 1) :: H.WRITE :: values)
            :: channelWrites H c id1 b1 b2 b3 id1 id2 := by
  rcases hm with hm | hm | hm <;> subst hm
  · have h := transmit_scopes H c id1 id2 values values.length ack s
    rw [range_getD, bitsInt_transmit _ (by omega)] at h
    refine staged_exists _ _ _ _ _ _ _ _ _ _ _ h ?_
    simp only [fieldM_P, u8, GETMAIL]
    omega
  · have h := immediate_reply_scopes H c id1 id2 values values.length s
    rw [range_getD] at h
    refine staged_exists _ _ _ _ _ _ _ _ _ _ _ h ?_
    have hx := pointer_even c
    simp only [fieldM_P, u8, GETMAIL, bits, Nat.reducePow] at hx ⊢
    generalize c * 30 % 128 = x at hx ⊢
    omega
  · have h := deferred_reply_scopes H c id1 id2 values values.length s
    rw [range_getD] at h
    refine staged_exists _ _ _ _ _ _ _ _ _ _ _ h ?_
    have hx := pointer_even c
    simp only [fieldM_P, u8, GETMAIL, bits, Nat.reducePow] at hx ⊢
    generalize c * 30 % 128 = x at hx ⊢
    omega

/-- C7, witness: Transmit on channel 2 with payload `[0x11, 0x22, 0x33]`. -/
theorem C7_payload_staged_first_witness :
    (Mode.Transmit = Mode.Transmit ∨ Mode.Transmit = Mode.ImmediateReply
      ∨ Mode.Transmit = Mode.DeferredReply) ∧
    [0x11, 0x22, 0x33].length ≤ 29 ∧
    ∃ b1 b2 b3,
      scopes (issued idle (configure sampleHeader Mode.Transmit 2 0x1A 4 [0x11, 0x22, 0x33]
          [0x11, 0x22, 0x33].length 0 idle))
        = ((0x80 + fieldM_P b2 + 1) :: sampleHeader.WRITE :: [0x11, 0x22, 0x33])
            :: channelWrites sampleHeader 2 0x1A b1 b2 b3 0x1A 4 :=
  ⟨Or.inl rfl, by decide,
   C7_payload_staged_first sampleHeader Mode.Transmit 2 0x1A 4 [0x11, 0x22, 0x33] 0 idle
     (Or.inl rfl) (by decide)⟩

/-- Evaluation of Transmit on channel 2 with payload `[0x11, 0x22, 0x33]`: the
first transaction block-writes the three bytes at mailbox offset 124 (address
`0xFC`), the six channel-register writes follow, with pointer byte 123 and
length field 4. -/
theorem transmit_channel_2_payload_3 :
    scopes (issued idle
        (set_channel_for_transmit_message sampleHeader 2 0x1A 4 [0x11, 0x22, 0x33] 3 0 idle))
      = [[0x80 + 124, 0xE0, 0x11, 0x22, 0x33],
         [0x20, 0xE0, 0x1A], [0x21, 0xE0, 0x48], [0x22, 0xE0, 123], [0x23, 0xE0, 0x20],
         [0x26, 0xE0, 0x1A], [0x27, 0xE0, 4]] ∧
    0x80 + 124 = 0xFC ∧ fieldM_L 0x20 = 4 := by
  decide

/-- C8: for every payload length `L` in [0,29], `set_channel_for_transmit_message`
writes the message-pointer byte `127 - (L + 1) = 126 - L` (`M_P = 126 - L`,
`DRAK = 0`) and stages exactly `L` bytes at address `0x80 + (127 - L)`, so the
staged bytes occupy mailbox offsets `127 - L .. 126`, below offset 127 and
without wrapping the 8-bit address. -/
theorem C8_transmit_pointer (H : Header) (c id1 id2 : Nat) (values : List Nat) (L ack : Nat)
    (s : Driver) (hL : L ≤ 29) :
    ∃ b1 b3,
      scopes (issued s (set_channel_for_transmit_message H c id1 id2 values L ack s))
        = ((0x80 + (127 - L)) :: H.WRITE :: (List.range L).map (fun i => values.getD i 0))
            :: channelWrites H c id1 b1 (126 - L) b3 id1 id2 ∧
      126 - L = 127 - (L + 1) ∧ fieldM_P (126 - L) = 126 - L ∧ fieldDRAK (126 - L) = 0 ∧
      ((List.range L).map (fun i => values.getD i 0)).length = L ∧
      ∀ i, i < L → (127 - L) + i ≤ 126 ∧ 0x80 + (127 - L) + i ≤ 0xFE := by
  have h := transmit_scopes H c id1 id2 values L ack s
  rw [bitsInt_transmit _ (by omega)] at h
  have ha : u8 (GETMAIL (126 - L + 1)) = 0x80 + (127 - L) := by
    simp only [u8, GETMAIL]
    omega
  rw [ha, Nat.zero_mul, Nat.zero_add] at h
  refine ⟨_, _, h, ?_, ?_, ?_, by simp, ?_⟩
  · omega
  · simp only [fieldM_P]; omega
  · simp only [fieldDRAK]; omega
  · intro i hi
    omega

/-- C8, witness: Transmit of a three-byte payload. -/
theorem C8_transmit_pointer_witness :
    3 ≤ 29 ∧
    ∃ b1 b3,
      scopes (issued idle
          (set_channel_for_transmit_message sampleHeader 2 0x1A 4 [0x11, 0x22, 0x33] 3 0 idle))
        = ((0x80 + (127 - 3)) :: sampleHeader.WRITE
              :: (List.range 3).map (fun i => [0x11, 0x22, 0x33].getD i 0))
            :: channelWrites sampleHeader 2 0x1A b1 (126 - 3) b3 0x1A 4 ∧
      126 - 3 = 127 - (3 + 1) ∧ fieldM_P (126 - 3) = 126 - 3 ∧ fieldDRAK (126 - 3) = 0 ∧
      ((List.range 3).map (fun i => [0x11, 0x22, 0x33].getD i 0)).length = 3 ∧
      ∀ i, i < 3 → (127 - 3) + i ≤ 126 ∧ 0x80 + (127 - 3) + i ≤ 0xFE :=
  ⟨by decide,
   C8_transmit_pointer sampleHeader 2 0x1A 4 [0x11, 0x22, 0x33] 3 0 idle (by decide)⟩

theorem length_field_all (H : Header) (m : Mode) (c id1 id2 : Nat) (values : List Nat)
    (L ack : Nat) (s : Driver) (hL : L ≤ 29) :
    ∃ pre b1 b2 b3, pre.length ≤ 1 ∧
      scopes (issued s (configure H m c id1 id2 values L ack s))
        = pre ++ channelWrites H c id1 b1 b2 b3 id1 id2 ∧
      fieldM_L b3 = L + 1 ∧ fieldM_L b3 ≠ 0 := by
  cases m with
  | Transmit =>
    refine ⟨[_], _, _, _, by simp, transmit_scopes H c id1 id2 values L ack s, ?_⟩
    simp only [fieldM_L, bits, Nat.reducePow]; omega
  | Receive =>
    refine ⟨[], _, _, _, by simp, receive_scopes H c id1 id2 L s, ?_⟩
    simp only [fieldM_L, bits, Nat.reducePow]; omega
  | ReplyRequestNoTx =>
    refine ⟨[], _, _, _, by simp, reply_request_no_tx_scopes H c id1 id2 L s, ?_⟩
    simp only [fieldM_L, bits, Nat.reducePow]; omega
  | ReplyRequest =>
    refine ⟨[], _, _, _, by simp, reply_request_scopes H c id1 id2 L s, ?_⟩
    simp only [fieldM_L, bits, Nat.reducePow]; omega
  | ImmediateReply =>
    refine ⟨[_], _, _, _, by simp, immediate_reply_scopes H c id1 id2 values L s, ?_⟩
    simp only [fieldM_L, bits, Nat.reducePow]; omega
  | DeferredReply =>
    refine ⟨[_], _, _, _, by simp, deferred_reply_scopes H c id1 id2 values L s, ?_⟩
    simp only [fieldM_L, bits, Nat.reducePow]; omega
  | ReplyRequestDetection =>
    refine ⟨[], _, _, _, by simp, reply_request_detection_scopes H c id1 id2 L s, ?_⟩
    simp only [fieldM_L, bits, Nat.reducePow]; omega

/-- C9: for every one of the seven configure operations and every payload
length `L` in [0,29], the byte written to offset 3 carries `M_L = L + 1` in
bits 7..3, and that field is not 0. -/
theorem C9_length_field (H : Header) (m : Mode) (c id1 id2 : Nat) (values : List Nat)
    (L ack : Nat) (s : Driver) (hL : L ≤ 29) :
    ∃ pre b1 b2 b3, pre.length ≤ 1 ∧
      scopes (issued s (configure H m c id1 id2 values L ack s))
        = pre ++ channelWrites H c id1 b1 b2 b3 id1 id2 ∧
      fieldM_L b3 = L + 1 ∧ fieldM_L b3 ≠ 0 :=
  length_field_all H m c id1 id2 values L ack s hL

/-- C9, witness: ReplyRequestDetection with the longest payload, 29 bytes. -/
theorem C9_length_field_witness :
    29 ≤ 29 ∧
    ∃ pre b1 b2 b3, pre.length ≤ 1 ∧
      scopes (issued idle
          (configure sampleHeader Mode.ReplyRequestDetection 1 0x9C 4 [] 29 0 idle))
        = pre ++ channelWrites sampleHeader 1 0x9C b1 b2 b3 0x9C 4 ∧
      fieldM_L b3 = 29 + 1 ∧ fieldM_L b3 ≠ 0 :=
  ⟨le_refl 29,
   C9_length_field sampleHeader Mode.ReplyRequestDetection 1 0x9C 4 [] 29 0 idle (le_refl 29)⟩

/-! ## Message ingest -/

theorem ExtractBits_low (v n : Nat) : ExtractBits v n 1 = v % 2 ^ n := by
  simp [ExtractBits, Nat.one_shiftLeft, Nat.and_comm]

theorem register_get_value (H : Header) (a : Nat) (s : Driver) :
    (register_get H a s).1 = s.miso (s.clock + 2) := by
  simp [register_get, TSS463_SELECT, TSS463_UNSELECT, delay_ms, spi_transfer, check_answer]

theorem register_get_miso (H : Header) (a : Nat) (s : Driver) :
    (register_get H a s).2.miso = s.miso := by
  simp [register_get, TSS463_SELECT, TSS463_UNSELECT, delay_ms, spi_transfer, check_answer]

theorem register_get_clock (H : Header) (a : Nat) (s : Driver) :
    (register_get H a s).2.clock = s.clock + 3 := by
  simp [register_get, TSS463_SELECT, TSS463_UNSELECT, delay_ms, spi_transfer, check_answer]

theorem register_get_trace (H : Header) (a : Nat) (s : Driver) :
    (register_get H a s).2.trace = s.trace ++ readActions H a := by
  simp [register_get, readActions, TSS463_SELECT, TSS463_UNSELECT, delay_ms, spi_transfer,
    check_answer]

theorem recv_loop (values : Nat → Nat) (s : Driver) (n : Nat) :
    (List.range n).foldl
        (fun (vs : (Nat → Nat) × Driver) i =>
          let r := spi_transfer 0xff vs.2
          (Function.update vs.1 i r.1, r.2)) (values, s)
      = (fun i => if i < n then s.miso (s.clock + i) else values i,
         { s with clock := s.clock + n,
                  trace := s.trace ++ List.replicate n (Action.exchange 0xff) }) := by
  induction n with
  | zero => simp
  | succ n ih =>
    rw [List.range_succ, List.foldl_append, ih]
    simp only [List.foldl_cons, List.foldl_nil, spi_transfer, List.append_assoc]
    refine Prod.ext ?_ ?_
    · funext j
      simp only [Function.update_apply]
      by_cases hj : j = n
      · subst hj; simp
      · have : (j < n + 1) = (j < n) := by
          apply propext; omega
        simp [hj, this]
    · simp [List.replicate_succ', Nat.add_assoc]

theorem copy_loop (cd b : Nat → Nat) (n : Nat) :
    (List.range n).foldl (fun b i => Function.update b (i + 2) (cd i)) b
      = fun j => if 2 ≤ j ∧ j < n + 2 then cd (j - 2) else b j := by
  induction n with
  | zero =>
    funext j
    have : ¬ (2 ≤ j ∧ j < 0 + 2) := by omega
    simp [this]
  | succ n ih =>
    rw [List.range_succ, List.foldl_append, ih]
    funext j
    simp only [List.foldl_cons, List.foldl_nil, Function.update_apply]
    by_cases hj : j = n + 2
    · subst hj; simp
    · have : (2 ≤ j ∧ j < n + 1 + 2) = (2 ≤ j ∧ j < n + 2) := by
        apply propext; omega
      simp [hj, this]

theorem registers_get_values (H : Header) (a : Nat) (values : Nat → Nat) (count : Nat)
    (s : Driver) :
    (registers_get H a values count s).2.1
      = fun i => if i < count then s.miso (s.clock + 2 + i) else values i := by
  simp only [registers_get, recv_loop]
  simp [TSS463_SELECT, delay_ms, spi_transfer, check_answer]

theorem registers_get_trace (H : Header) (a : Nat) (values : Nat → Nat) (count : Nat)
    (s : Driver) :
    (registers_get H a values count s).2.2.trace = s.trace ++ blockReadActions H a count := by
  simp only [registers_get, recv_loop]
  simp [blockReadActions, TSS463_SELECT, TSS463_UNSELECT, delay_ms, spi_transfer, check_answer]

theorem scopes_readActions (H : Header) (a : Nat) (t : List Action) :
    scopesFrom none (readActions H a ++ t) = [a, H.READ, 0xff] :: scopesFrom none t := by
  simp [readActions, scopesFrom]

theorem scopesFrom_replicate (bs : List Nat) (n v : Nat) (t : List Action) :
    scopesFrom (some bs) (List.replicate n (Action.exchange v) ++ t)
      = scopesFrom (some (bs ++ List.replicate n v)) t := by
  have h : List.replicate n (Action.exchange v)
      = (List.replicate n v).map Action.exchange := by simp
  rw [h, scopesFrom_exchanges]

theorem scopes_blockReadActions (H : Header) (a n : Nat) :
    scopesFrom none (blockReadActions H a n) = [a :: H.READ :: List.replicate n 0xff] := by
  simp [blockReadActions, scopesFrom, scopesFrom_replicate]

theorem readMsgBuf_len (H : Header) (c : Nat) (buf : Nat → Nat) (s : Driver) :
    (readMsgBuf H c buf s).1.len = s.miso (s.clock + 11) % 32 + 2 := by
  have h : s.miso (s.clock + 11) % 32 < 32 := Nat.mod_lt _ (by norm_num)
  simp only [readMsgBuf, register_get_value, register_get_clock, register_get_miso,
    ExtractBits_low, u8, Nat.reducePow, Nat.add_assoc, Nat.reduceAdd]
  omega

theorem readMsgBuf_buf (H : Header) (c : Nat) (buf : Nat → Nat) (s : Driver) :
    (readMsgBuf H c buf s).1.buf
      = fun j =>
          if 2 ≤ j ∧ j < s.miso (s.clock + 11) % 32 + 2 then s.miso (s.clock + 14 + (j - 2))
          else if j = 1 then s.miso (s.clock + 5)
          else if j = 0 then s.miso (s.clock + 2)
          else buf j := by
  have h : s.miso (s.clock + 11) % 32 % 256 = s.miso (s.clock + 11) % 32 := by omega
  simp only [readMsgBuf, register_get_value, register_get_clock, register_get_miso,
    ExtractBits_low, u8, Nat.reducePow, Nat.add_assoc, Nat.reduceAdd, copy_loop,
    registers_get_values, h]
  funext j
  by_cases h2 : 2 ≤ j ∧ j < s.miso (s.clock + 11) % 32 + 2
  · have h3 : j - 2 < s.miso (s.clock + 11) % 32 := by omega
    simp [h2, h3]
  · simp only [h2, if_false, Function.update_apply]

theorem readMsgBuf_scopes (H : Header) (c : Nat) (buf : Nat → Nat) (s : Driver) :
    scopes (issued s (readMsgBuf H c buf s).2)
      = [[u8 (CHANNEL_ADDR H c + 0), H.READ, 0xff],
         [u8 (CHANNEL_ADDR H c + 1), H.READ, 0xff],
         [u8 (CHANNEL_ADDR H c + 2), H.READ, 0xff],
         [0x80 + s.miso (s.clock + 8) % 128, H.READ, 0xff],
         u8 (GETMAIL (c * 30 + 1)) :: H.READ
           :: List.replicate (s.miso (s.clock + 11) % 32) 0xff] := by
  have h : s.miso (s.clock + 11) % 32 % 256 = s.miso (s.clock + 11) % 32 := by omega
  have h8 : (0x80 + s.miso (s.clock + 8) % 128 % 256) % 256
      = 0x80 + s.miso (s.clock + 8) % 128 := by omega
  have ht : (readMsgBuf H c buf s).2.trace
      = s.trace ++ (readActions H (u8 (CHANNEL_ADDR H c + 0))
        ++ (readActions H (u8 (CHANNEL_ADDR H c + 1))
        ++ (readActions H (u8 (CHANNEL_ADDR H c + 2))
        ++ (readActions H (0x80 + s.miso (s.clock + 8) % 128)
        ++ blockReadActions H (u8 (GETMAIL (c * 30 + 1)))
            (s.miso (s.clock + 11) % 32))))) := by
    simp only [readMsgBuf, register_get_value, register_get_clock, register_get_miso,
      register_get_trace, registers_get_trace, ExtractBits_low, u8, GETMAIL, Nat.reducePow,
      Nat.add_assoc, Nat.reduceAdd, List.append_assoc, h, h8]
  rw [issued_of_trace _ _ _ ht]
  simp only [scopes, scopes_readActions, scopes_blockReadActions]

/-- C3 (as amended): for every payload length `L` in [0,29], every configure
operation writes `M_L = L + 1` into the byte at offset 3; when `readMsgBuf`
reads a status byte whose 5-bit length field holds that value `L + 1`, it
reports `*len = L + 3` and copies exactly `L + 1` payload bytes, so the length
it recovers from the field is `L + 1`, the field itself, not `L`.  (The
status byte is the answer to the twelfth exchange of the call,
`s2.miso (s2.clock + 11)`; the block read starts at exchange `s2.clock + 14`.) -/
theorem C3_length_field_read_back_unchanged (H : Header) (m : Mode) (c id1 id2 : Nat)
    (values : List Nat) (L ack : Nat) (s : Driver) (c2 : Nat) (buf : Nat → Nat)
    (s2 : Driver) (hL : L ≤ 29) (hst : s2.miso (s2.clock + 11) % 32 = L + 1) :
    (∃ pre b1 b2 b3, pre.length ≤ 1 ∧
      scopes (issued s (configure H m c id1 id2 values L ack s))
        = pre ++ channelWrites H c id1 b1 b2 b3 id1 id2 ∧
      fieldM_L b3 = L + 1) ∧
    (readMsgBuf H c2 buf s2).1.len = L + 3 ∧
    (readMsgBuf H c2 buf s2).1.len - 2 = L + 1 ∧
    (∀ i, i < L + 1 → (readMsgBuf H c2 buf s2).1.buf (2 + i) = s2.miso (s2.clock + 14 + i)) ∧
    (∀ j, L + 3 ≤ j → (readMsgBuf H c2 buf s2).1.buf j = buf j) := by
  refine ⟨?_, ?_, ?_, ?_, ?_⟩
  · obtain ⟨pre, b1, b2, b3, h1, h2, h3, _⟩ :=
      length_field_all H m c id1 id2 values L ack s hL
    exact ⟨pre, b1, b2, b3, h1, h2, h3⟩
  · rw [readMsgBuf_len, hst]
  · rw [readMsgBuf_len, hst]; omega
  · intro i hi
    rw [readMsgBuf_buf, hst]
    have h : 2 ≤ 2 + i ∧ 2 + i < L + 1 + 2 := by omega
    simp only [h, and_self, if_true]
    congr 1
    omega
  · intro j hj
    rw [readMsgBuf_buf, hst]
    have h : ¬ (2 ≤ j ∧ j < L + 1 + 2) := by omega
    have h1 : j ≠ 1 := by omega
    have h0 : j ≠ 0 := by omega
    simp only [h, h1, h0, if_false]

/-- C3, witness: Receive with `L = 5` and a chip reporting the status byte
`0x06`. -/
theorem C3_length_field_read_back_unchanged_witness :
    5 ≤ 29 ∧
    (fresh (replay (ingestAnswers 0x06))).miso ((fresh (replay (ingestAnswers 0x06))).clock + 11)
      % 32 = 5 + 1 ∧
    ((∃ pre b1 b2 b3, pre.length ≤ 1 ∧
      scopes (issued idle (configure sampleHeader Mode.Receive 3 0x9C 4 [] 5 0 idle))
        = pre ++ channelWrites sampleHeader 3 0x9C b1 b2 b3 0x9C 4 ∧
      fieldM_L b3 = 5 + 1) ∧
    (readMsgBuf sampleHeader 3 (fun _ => 0) (fresh (replay (ingestAnswers 0x06)))).1.len = 5 + 3 ∧
    (readMsgBuf sampleHeader 3 (fun _ => 0) (fresh (replay (ingestAnswers 0x06)))).1.len - 2
      = 5 + 1 ∧
    (∀ i, i < 5 + 1 →
      (readMsgBuf sampleHeader 3 (fun _ => 0) (fresh (replay (ingestAnswers 0x06)))).1.buf (2 + i)
        = (fresh (replay (ingestAnswers 0x06))).miso
            ((fresh (replay (ingestAnswers 0x06))).clock + 14 + i)) ∧
    (∀ j, 5 + 3 ≤ j →
      (readMsgBuf sampleHeader 3 (fun _ => 0) (fresh (replay (ingestAnswers 0x06)))).1.buf j
        = (fun _ => 0) j)) :=
  ⟨by decide, by decide,
   C3_length_field_read_back_unchanged sampleHeader Mode.Receive 3 0x9C 4 [] 5 0 idle 3
     (fun _ => 0) (fresh (replay (ingestAnswers 0x06))) (by decide) (by decide)⟩

/-- C3, counterexample: Receive with payload length 5 writes `M_L = 6`; reading
back a status byte with length field 6, `readMsgBuf` reports `*len = 8`, so
the recovered payload length `*len - 2` is 6 and not 5. -/
theorem C3_counterexample_length_5 :
    scopes (issued idle (configure sampleHeader Mode.Receive 3 0x9C 4 [] 5 0 idle))
      = channelWrites sampleHeader 3 0x9C 0x49 0xDA 0x30 0x9C 4 ∧
    fieldM_L 0x30 = 5 + 1 ∧
    0x06 % 32 = fieldM_L 0x30 ∧
    (readMsgBuf sampleHeader 3 (fun _ => 0) (fresh (replay (ingestAnswers 0x06)))).1.len = 8 ∧
    (readMsgBuf sampleHeader 3 (fun _ => 0) (fresh (replay (ingestAnswers 0x06)))).1.len - 2
      ≠ 5 := by
  decide

/-- C10 (as amended): for every channel index `c` and every chip response,
`readMsgBuf` issues five read transactions: the channel registers at offsets
0, 1 and 2, the status byte at `0x80 + (pointer byte mod 128)` and a block read
of `n` filler bytes, `n` being the low five bits of the status byte.  It sets
`*len = n + 2`, `buf[0]` and `buf[1]` to the bytes read from offsets 0 and 1,
and `buf[2 + i]` to the `i`-th byte of the block read for every `i < n`.  The
block read starts at the 8-bit address `(0x80 + c * 30 + 1) mod 256`, which is
mailbox offset `c * 30 + 1` for `c ≤ 4`.  (Exchanges `k .. k + 2` belong to
the first read, with `k` the exchange count on entry; the byte read is the
answer to the third exchange of a transaction, and the block starts at
exchange `k + 14`.) -/
theorem C10_readMsgBuf_result (H : Header) (c : Nat) (buf : Nat → Nat) (s : Driver) :
    (readMsgBuf H c buf s).1.len = (s.miso (s.clock + 11) &&& 0x1F) + 2 ∧
    (readMsgBuf H c buf s).1.buf 0 = s.miso (s.clock + 2) ∧
    (readMsgBuf H c buf s).1.buf 1 = s.miso (s.clock + 5) ∧
    (∀ i, i < (s.miso (s.clock + 11) &&& 0x1F) →
      (readMsgBuf H c buf s).1.buf (2 + i) = s.miso (s.clock + 14 + i)) ∧
    scopes (issued s (readMsgBuf H c buf s).2)
      = [[u8 (CHANNEL_ADDR H c + 0), H.READ, 0xff],
         [u8 (CHANNEL_ADDR H c + 1), H.READ, 0xff],
         [u8 (CHANNEL_ADDR H c + 2), H.READ, 0xff],
         [0x80 + s.miso (s.clock + 8) % 128, H.READ, 0xff],
         ((0x80 + (c * 30 + 1)) % 256) :: H.READ
           :: List.replicate (s.miso (s.clock + 11) &&& 0x1F) 0xff] ∧
    (c ≤ 4 → (0x80 + (c * 30 + 1)) % 256 = 0x80 + (c * 30 + 1)) := by
  have hand : s.miso (s.clock + 11) &&& 0x1F = s.miso (s.clock + 11) % 32 :=
    Nat.and_pow_two_sub_one_eq_mod _ 5
  rw [hand]
  refine ⟨readMsgBuf_len H c buf s, ?_, ?_, ?_, ?_, ?_⟩
  · rw [readMsgBuf_buf]
    simp
  · rw [readMsgBuf_buf]
    simp
  · intro i hi
    rw [readMsgBuf_buf]
    have h : 2 ≤ 2 + i ∧ 2 + i < s.miso (s.clock + 11) % 32 + 2 := by omega
    simp only [h, and_self, if_true]
    congr 1
    omega
  · rw [readMsgBuf_scopes]
    simp only [u8, GETMAIL]
  · intro hc
    omega

/-- Evaluation of `readMsgBuf(3)` against a chip reporting status length 5: the
call returns `*len = 7` and the five payload bytes of a block read that starts
at mailbox offset 91 (address `0xDB`). -/
theorem readMsgBuf_channel_3_length_5 :
    (readMsgBuf sampleHeader 3 (fun _ => 0) (fresh (replay (ingestAnswers 0x05)))).1.len = 7 ∧
    (List.range 9).map
        (readMsgBuf sampleHeader 3 (fun _ => 0) (fresh (replay (ingestAnswers 0x05)))).1.buf
      = [0x9C, 0x49, 1, 2, 3, 4, 5, 0, 0] ∧
    scopes (issued (fresh (replay (ingestAnswers 0x05)))
        (readMsgBuf sampleHeader 3 (fun _ => 0) (fresh (replay (ingestAnswers 0x05)))).2)
      = [[0x28, 0x60, 0xff], [0x29, 0x60, 0xff], [0x2A, 0x60, 0xff], [0x96, 0x60, 0xff],
         [0x80 + 91, 0x60, 0xff, 0xff, 0xff, 0xff, 0xff]] := by
  decide

/-- C10, counterexample: on channel 5 the block read of `readMsgBuf` starts at
address `0x17`, which is not `0x80 + (5 * 30 + 1)` and lies below the mailbox
range. -/
theorem C10_counterexample_channel_5 :
    scopes (issued (fresh (replay (ingestAnswers 0x05)))
        (readMsgBuf sampleHeader 5 (fun _ => 0) (fresh (replay (ingestAnswers 0x05)))).2)
      = [[0x38, 0x60, 0xff], [0x39, 0x60, 0xff], [0x3A, 0x60, 0xff], [0x96, 0x60, 0xff],
         [0x17, 0x60, 0xff, 0xff, 0xff, 0xff, 0xff]] ∧
    0x17 ≠ 0x80 + (5 * 30 + 1) ∧ 0x17 < 0x80 := by
  decide

/-! ## Register access protocol: error counter and link actions -/

theorem send_loop_error (f : Nat → Nat) (l : List Nat) (s : Driver) :
    (l.foldl (fun s i => (spi_transfer (f i) s).2) s).error = s.error := by
  induction l generalizing s with
  | nil => simp
  | cons i l ih =>
    simp only [List.foldl_cons]
    rw [ih]
    simp [spi_transfer]

theorem register_set_error (H : Header) (a v : Nat) (s : Driver) :
    (register_set H a v s).error = s.error + mismatches H s := by
  simp only [register_set, mismatches, TSS463_SELECT, TSS463_UNSELECT, delay_ms, spi_transfer,
    check_answer]
  split_ifs <;> omega

theorem registers_set_error (H : Header) (a : Nat) (values : List Nat) (count : Nat)
    (s : Driver) :
    (registers_set H a values count s).error = s.error + mismatches H s := by
  simp only [registers_set, TSS463_UNSELECT, delay_ms, send_loop_error]
  simp only [mismatches, TSS463_SELECT, delay_ms, spi_transfer, check_answer]
  split_ifs <;> omega

theorem register_get_error (H : Header) (a : Nat) (s : Driver) :
    (register_get H a s).2.error = s.error + mismatches H s := by
  simp only [register_get, mismatches, TSS463_SELECT, TSS463_UNSELECT, delay_ms, spi_transfer,
    check_answer]
  split_ifs <;> omega

theorem registers_get_error (H : Header) (a : Nat) (values : Nat → Nat) (count : Nat)
    (s : Driver) :
    (registers_get H a values count s).2.2.error = s.error + mismatches H s := by
  simp only [registers_get, recv_loop]
  simp only [mismatches, TSS463_SELECT, TSS463_UNSELECT, delay_ms, spi_transfer, check_answer]
  split_ifs <;> omega

/-- C11: for each of `register_set`, `registers_set`, `register_get` and
`registers_get` and for every sequence of chip answers, the error counter
after the call is the counter before plus the number of mismatched handshake
answers: plus 1 if the answer to the address byte differs from `ADDR_ANSW` and
plus 1 if the answer to the command byte differs from `CMD_ANSW`.  It is
unchanged when both answers are correct, and it is the same for two chips
that differ only in their answers after the handshake. -/
theorem C11_error_counts_handshake_mismatches (H : Header) (a v count : Nat)
    (values : List Nat) (out : Nat → Nat) (s : Driver) :
    (register_set H a v s).error = s.error + mismatches H s ∧
    (registers_set H a values count s).error = s.error + mismatches H s ∧
    (register_get H a s).2.error = s.error + mismatches H s ∧
    (registers_get H a out count s).2.2.error = s.error + mismatches H s ∧
    mismatches H s
      = (if s.miso s.clock ≠ H.ADDR_ANSW then 1 else 0)
        + (if s.miso (s.clock + 1) ≠ H.CMD_ANSW then 1 else 0) ∧
    (s.miso s.clock = H.ADDR_ANSW → s.miso (s.clock + 1) = H.CMD_ANSW →
      mismatches H s = 0) ∧
    (∀ t : Driver, t.clock = s.clock → t.error = s.error → t.miso s.clock = s.miso s.clock →
      t.miso (s.clock + 1) = s.miso (s.clock + 1) →
      (register_set H a v t).error = (register_set H a v s).error ∧
      (registers_set H a values count t).error = (registers_set H a values count s).error ∧
      (register_get H a t).2.error = (register_get H a s).2.error ∧
      (registers_get H a out count t).2.2.error
        = (registers_get H a out count s).2.2.error) := by
  refine ⟨register_set_error H a v s, registers_set_error H a values count s,
    register_get_error H a s, registers_get_error H a out count s, rfl, ?_, ?_⟩
  · intro h1 h2
    simp [mismatches, h1, h2]
  · intro t hc he h1 h2
    have hm : mismatches H t = mismatches H s := by
      simp only [mismatches, hc, h1, h2]
    simp only [register_set_error, registers_set_error, register_get_error,
      registers_get_error, hm, he, and_self]

/-- Evaluation of the error counter: a wrong answer to the address byte and a
correct answer to the command byte add 1, two wrong answers add 2, two correct
answers add 0, whatever the chip answers afterwards. -/
theorem error_counter_examples :
    (register_set sampleHeader 0x10 0x20 (fresh (replay [0x00, 0x55, 0x13]))).error = 1 ∧
    (register_get sampleHeader 0x10 (fresh (replay [0x00, 0x00, 0x13]))).2.error = 2 ∧
    (registers_set sampleHeader 0x80 [1, 2, 3] 3 (fresh (replay [0xAA, 0x55, 9, 9, 9]))).error
      = 0 ∧
    (registers_get sampleHeader 0x80 (fun _ => 0) 3
      (fresh (replay [0xAA, 0x55, 9, 9, 9]))).2.2.error = 0 := by
  decide

/-- C12: `register_set(address, value)` issues the same actions whatever the
chip answers: for any two driver states (any two chips, any error counts) the
actions issued are identical, and on the link they are exactly select,
exchange(address), exchange(WRITE), exchange(value), deselect, with the four
fixed waits of 4, 8, 15 and 12 ms in between; the value byte is sent whether or
not a handshake answer was wrong. -/
theorem C12_register_set_fire_and_count (H : Header) (address value : Nat)
    (s1 s2 : Driver) :
    issued s1 (register_set H address value s1) = issued s2 (register_set H address value s2) ∧
    busActions (issued s1 (register_set H address value s1))
      = [Action.select, Action.exchange address, Action.exchange H.WRITE,
         Action.exchange value, Action.deselect] ∧
    issued s1 (register_set H address value s1)
      = [Action.select, Action.delay 4, Action.exchange address, Action.delay 8,
         Action.exchange H.WRITE, Action.delay 15, Action.exchange value, Action.delay 12,
         Action.deselect] := by
  have h1 := issued_of_trace _ _ _ (register_set_trace H address value s1)
  have h2 := issued_of_trace _ _ _ (register_set_trace H address value s2)
  rw [h1, h2]
  refine ⟨rfl, ?_, rfl⟩
  simp [busActions, writeActions]

/-! ## The chip as a register file -/

theorem disable_channel_scopes (H : Header) (c : Nat) (s : Driver) :
    scopes (issued s (disable_channel H c s)) = channelWrites H c 0 0 0 0x0F 0 0 := by
  have h : (disable_channel H c s).trace
      = s.trace ++ (writeActions H (u8 (CHANNEL_ADDR H c + 0)) 0
        ++ (writeActions H (u8 (CHANNEL_ADDR H c + 1)) 0
        ++ (writeActions H (u8 (CHANNEL_ADDR H c + 2)) 0
        ++ (writeActions H (u8 (CHANNEL_ADDR H c + 3)) 0x0F
        ++ (writeActions H (u8 (CHANNEL_ADDR H c + 6)) 0
        ++ (writeActions H (u8 (CHANNEL_ADDR H c + 7)) 0 ++ [])))))) := by
    simp only [disable_channel, register_set_trace, List.append_assoc, List.append_nil]
  rw [issued_of_trace _ _ _ h]
  simp [scopes, scopes_writeActions, channelWrites, scopesFrom]

theorem applyTransaction_write (H : Header) (rf : Nat → Nat) (a v : Nat) :
    applyTransaction H rf [a, H.WRITE, v] = Function.update rf (a % 256) v := by
  simp [applyTransaction, storeBlock]

theorem chip_channelWrites (H : Header) (rf : Nat → Nat) (c b0 b1 b2 b3 b6 b7 : Nat) :
    (channelWrites H c b0 b1 b2 b3 b6 b7).foldl (applyTransaction H) rf
      = Function.update (Function.update (Function.update (Function.update
          (Function.update (Function.update rf
            (u8 (CHANNEL_ADDR H c + 0)) b0)
            (u8 (CHANNEL_ADDR H c + 1)) b1)
            (u8 (CHANNEL_ADDR H c + 2)) b2)
            (u8 (CHANNEL_ADDR H c + 3)) b3)
            (u8 (CHANNEL_ADDR H c + 6)) b6)
            (u8 (CHANNEL_ADDR H c + 7)) b7 := by
  have hu : ∀ x, u8 x % 256 = u8 x := by
    intro x
    simp [u8]
  simp only [channelWrites, List.foldl_cons, List.foldl_nil, applyTransaction_write, hu]

/-- C13: on the register-file model of the chip, running `disable_channel(c)`
twice from any register state leaves the same register state as running it
once, for every channel index `c` (whatever the chip answered in either
run). -/
theorem C13_disable_idempotent (H : Header) (c : Nat) (rf : Nat → Nat) (s t : Driver) :
    chipAfter H (chipAfter H rf (issued s (disable_channel H c s)))
        (issued t (disable_channel H c t))
      = chipAfter H rf (issued s (disable_channel H c s)) := by
  simp only [chipAfter, disable_channel_scopes, chip_channelWrites]
  funext x
  simp only [Function.update_apply]
  split_ifs <;> rfl

/-- Evaluation of `disable_channel(2)` on a register file holding `0xEE`
everywhere: the six registers of the block read 0, 0, 0, `0x0F`, 0, 0 after one
run and after two, and the untouched offsets 4 and 5 keep `0xEE`. -/
theorem disable_channel_2_registers :
    (List.range 8).map (fun k =>
        chipAfter sampleHeader (fun _ => 0xEE) (issued idle (disable_channel sampleHeader 2 idle))
          (0x20 + k))
      = [0, 0, 0, 0x0F, 0xEE, 0xEE, 0, 0] ∧
    (List.range 8).map (fun k =>
        chipAfter sampleHeader
          (chipAfter sampleHeader (fun _ => 0xEE)
            (issued idle (disable_channel sampleHeader 2 idle)))
          (issued idle (disable_channel sampleHeader 2 idle)) (0x20 + k))
      = [0, 0, 0, 0x0F, 0xEE, 0xEE, 0, 0] := by
  decide

/-! ## Identifier split and join -/

theorem join_split (v b1 : Nat) (h : b1 / 16 = v % 16) :
    ((v >>> 4) <<< 4 ||| (b1 >>> 4)) = v := by
  have hlt : v % 16 < 2 ^ 4 := by
    have := Nat.mod_lt v (show 0 < 16 by norm_num)
    simpa using this
  rw [Nat.shiftRight_eq_div_pow, Nat.shiftRight_eq_div_pow, Nat.shiftLeft_eq,
    Nat.mul_comm (v / 2 ^ 4) (2 ^ 4)]
  have h2 : b1 / 2 ^ 4 = v % 16 := by simpa using h
  rw [h2, ← Nat.mul_add_lt_is_or hlt]
  have := Nat.div_add_mod v 16
  simpa using this

theorem command_byte_all (H : Header) (m : Mode) (c id1 id2 : Nat) (values : List Nat)
    (L ack : Nat) (s : Driver) :
    ∃ pre b1 b2 b3, pre.length ≤ 1 ∧
      scopes (issued s (configure H m c id1 id2 values L ack s))
        = pre ++ channelWrites H c id1 b1 b2 b3 id1 id2 ∧
      b1 / 16 = id2 % 16 := by
  cases m with
  | Transmit =>
    refine ⟨[_], _, _, _, by simp, transmit_scopes H c id1 id2 values L ack s, ?_⟩
    simp only [bits, Nat.reducePow]; omega
  | Receive =>
    refine ⟨[], _, _, _, by simp, receive_scopes H c id1 id2 L s, ?_⟩
    simp only [bits, Nat.reducePow]; omega
  | ReplyRequestNoTx =>
    refine ⟨[], _, _, _, by simp, reply_request_no_tx_scopes H c id1 id2 L s, ?_⟩
    simp only [bits, Nat.reducePow]; omega
  | ReplyRequest =>
    refine ⟨[], _, _, _, by simp, reply_request_scopes H c id1 id2 L s, ?_⟩
    simp only [bits, Nat.reducePow]; omega
  | ImmediateReply =>
    refine ⟨[_], _, _, _, by simp, immediate_reply_scopes H c id1 id2 values L s, ?_⟩
    simp only [bits, Nat.reducePow]; omega
  | DeferredReply =>
    refine ⟨[_], _, _, _, by simp, deferred_reply_scopes H c id1 id2 values L s, ?_⟩
    simp only [bits, Nat.reducePow]; omega
  | ReplyRequestDetection =>
    refine ⟨[], _, _, _, by simp, reply_request_detection_scopes H c id1 id2 L s, ?_⟩
    simp only [bits, Nat.reducePow]; omega

/-- C14: for every 12-bit identifier `v`, split as `id1 = v >> 4` (a byte) and
`id2 = v & 0xF`, every configure operation writes `id1` to channel offset 0
and a byte `b` to channel offset 1 such that `(id1 << 4) | (b >> 4) = v`. -/
theorem C14_identifier_round_trip (H : Header) (m : Mode) (c v : Nat) (values : List Nat)
    (L ack : Nat) (s : Driver) (hv : v < 4096) :
    v >>> 4 < 256 ∧ v &&& 0xF < 16 ∧
    ∃ pre b b2 b3, pre.length ≤ 1 ∧
      scopes (issued s (configure H m c (v >>> 4) (v &&& 0xF) values L ack s))
        = pre ++ channelWrites H c (v >>> 4) b b2 b3 (v >>> 4) (v &&& 0xF) ∧
      ((v >>> 4) <<< 4 ||| (b >>> 4)) = v := by
  have hand : v &&& 0xF = v % 16 := Nat.and_pow_two_sub_one_eq_mod v 4
  have hshift : v >>> 4 = v / 16 := by
    rw [Nat.shiftRight_eq_div_pow]
  refine ⟨by rw [hshift]; omega, by rw [hand]; omega, ?_⟩
  obtain ⟨pre, b, b2, b3, h1, h2, h3⟩ :=
    command_byte_all H m c (v >>> 4) (v &&& 0xF) values L ack s
  refine ⟨pre, b, b2, b3, h1, h2, join_split v b ?_⟩
  rw [h3, hand]
  omega

/-- C14, witness: Transmit with identifier `0x1A4`, split as `0x1A` and `4`. -/
theorem C14_identifier_round_trip_witness :
    0x1A4 < 4096 ∧
    (0x1A4 >>> 4 < 256 ∧ 0x1A4 &&& 0xF < 16 ∧
    ∃ pre b b2 b3, pre.length ≤ 1 ∧
      scopes (issued idle (configure sampleHeader Mode.Transmit 2 (0x1A4 >>> 4) (0x1A4 &&& 0xF)
          [0x11, 0x22, 0x33] 3 0 idle))
        = pre ++ channelWrites sampleHeader 2 (0x1A4 >>> 4) b b2 b3 (0x1A4 >>> 4)
            (0x1A4 &&& 0xF) ∧
      ((0x1A4 >>> 4) <<< 4 ||| (b >>> 4)) = 0x1A4) :=
  ⟨by decide,
   C14_identifier_round_trip sampleHeader Mode.Transmit 2 0x1A4 [0x11, 0x22, 0x33] 3 0 idle
     (by decide)⟩

/-! ## Register reads -/

theorem registers_get_clock (H : Header) (a : Nat) (values : Nat → Nat) (count : Nat)
    (s : Driver) :
    (registers_get H a values count s).2.2.clock = s.clock + 2 + count := by
  simp only [registers_get, recv_loop]
  simp [TSS463_SELECT, TSS463_UNSELECT, delay_ms, spi_transfer, check_answer]

theorem busActions_readActions (H : Header) (a : Nat) :
    busActions (readActions H a)
      = [Action.select, Action.exchange a, Action.exchange H.READ, Action.exchange 0xff,
         Action.deselect] := by
  simp [busActions, readActions]

theorem busActions_blockReadActions (H : Header) (a n : Nat) :
    busActions (blockReadActions H a n)
      = [Action.select, Action.exchange a, Action.exchange H.READ]
          ++ List.replicate n (Action.exchange 0xff) ++ [Action.deselect] := by
  have h : List.filter
      (fun a => match a with
        | Action.delay _ => false
        | _ => true) (List.replicate n (Action.exchange 0xff))
      = List.replicate n (Action.exchange 0xff) := by
    rw [List.filter_eq_self]
    intro x hx
    rw [List.eq_of_mem_replicate hx]
  simp [busActions, blockReadActions, List.filter_append, h]

/-- C15: `register_get(address)` makes exactly three exchanges between one
select and one deselect, sending `address`, then `READ`, then the filler byte
`0xFF`, and returns the chip's answer to the filler byte (the third
exchange), whatever the two handshake answers were. -/
theorem C15_register_get (H : Header) (address : Nat) (s : Driver) :
    busActions (issued s (register_get H address s).2)
      = [Action.select, Action.exchange address, Action.exchange H.READ,
         Action.exchange 0xff, Action.deselect] ∧
    scopes (issued s (register_get H address s).2) = [[address, H.READ, 0xff]] ∧
    (register_get H address s).2.clock = s.clock + 3 ∧
    (register_get H address s).1 = s.miso (s.clock + 2) := by
  have h := issued_of_trace _ _ _ (register_get_trace H address s)
  refine ⟨?_, ?_, register_get_clock H address s, register_get_value H address s⟩
  · rw [h, busActions_readActions]
  · rw [h]
    simp [scopes, readActions, scopesFrom]

/-- Evaluation of `register_get(0x13)` against a chip that answers both
handshake bytes wrongly and the filler with `0x42`: the call returns `0x42`. -/
theorem register_get_wrong_handshake :
    (register_get sampleHeader 0x13 (fresh (replay [0x00, 0x01, 0x42]))).1 = 0x42 ∧
    (register_get sampleHeader 0x13 (fresh (replay [0x00, 0x01, 0x42]))).2.error = 2 := by
  decide

/-- C16: `registers_get(address, values, count)` sends `address` and `READ` and
then makes exactly `count` exchanges of the filler byte `0xFF` before
deselecting; it stores the answer to the `i`-th filler exchange in `values[i]`
for every `i < count` and leaves every element at an index `≥ count` as it
was. -/
theorem C16_registers_get (H : Header) (address : Nat) (values : Nat → Nat) (count : Nat)
    (s : Driver) :
    busActions (issued s (registers_get H address values count s).2.2)
      = [Action.select, Action.exchange address, Action.exchange H.READ]
          ++ List.replicate count (Action.exchange 0xff) ++ [Action.deselect] ∧
    (registers_get H address values count s).2.2.clock = s.clock + 2 + count ∧
    (∀ i, i < count →
      (registers_get H address values count s).2.1 i = s.miso (s.clock + 2 + i)) ∧
    (∀ i, count ≤ i → (registers_get H address values count s).2.1 i = values i) := by
  have h := issued_of_trace _ _ _ (registers_get_trace H address values count s)
  refine ⟨?_, registers_get_clock H address values count s, ?_, ?_⟩
  · rw [h, busActions_blockReadActions]
  · intro i hi
    rw [registers_get_values]
    simp [hi]
  · intro i hi
    rw [registers_get_values]
    have : ¬ i < count := by omega
    simp [this]

/-- Evaluation of `registers_get(0x85, values, 3)` into an array holding `0x77`
everywhere: the first three elements receive the answers 1, 2, 3 to the filler
bytes and the following elements keep `0x77`. -/
theorem registers_get_three_bytes :
    (List.range 5).map
        (registers_get sampleHeader 0x85 (fun _ => 0x77) 3
          (fresh (replay [0xAA, 0x55, 1, 2, 3, 4]))).2.1
      = [1, 2, 3, 0x77, 0x77] ∧
    scopes (issued (fresh (replay [0xAA, 0x55, 1, 2, 3, 4]))
        (registers_get sampleHeader 0x85 (fun _ => 0x77) 3
          (fresh (replay [0xAA, 0x55, 1, 2, 3, 4]))).2.2)
      = [[0x85, 0x60, 0xff, 0xff, 0xff]] := by
  decide

/-- C17: `readMsgBuf` issues only register reads: its five transactions (three
channel-register reads, the status-byte read and the payload block read) all
carry `READ` as their command byte, so with `READ` and `WRITE` distinct
command codes none is a write, and on the register-file model of the chip the
register state after the call is the state before, for every channel index
and every chip answer. -/
theorem C17_readMsgBuf_reads_only (H : Header) (c : Nat) (buf : Nat → Nat) (s : Driver)
    (rf : Nat → Nat) (hrw : H.READ ≠ H.WRITE) :
    (scopes (issued s (readMsgBuf H c buf s).2)).length = 5 ∧
    (∀ t, t ∈ scopes (issued s (readMsgBuf H c buf s).2) →
      t.get? 1 = some H.READ ∧ t.get? 1 ≠ some H.WRITE) ∧
    chipAfter H rf (issued s (readMsgBuf H c buf s).2) = rf := by
  refine ⟨?_, ?_, ?_⟩
  · rw [readMsgBuf_scopes]
    simp
  · intro t ht
    rw [readMsgBuf_scopes] at ht
    simp only [List.mem_cons, List.mem_singleton, List.not_mem_nil, or_false] at ht
    rcases ht with h | h | h | h | h <;> subst h <;> simp [hrw]
  · simp only [chipAfter, readMsgBuf_scopes, List.foldl_cons, List.foldl_nil, applyTransaction,
      hrw, if_false]

/-- C17, witness: `readMsgBuf(3)` with the command codes `0x60` and `0xE0`. -/
theorem C17_readMsgBuf_reads_only_witness :
    sampleHeader.READ ≠ sampleHeader.WRITE ∧
    ((scopes (issued (fresh (replay (ingestAnswers 0x05)))
        (readMsgBuf sampleHeader 3 (fun _ => 0) (fresh (replay (ingestAnswers 0x05)))).2)).length
      = 5 ∧
    (∀ t, t ∈ scopes (issued (fresh (replay (ingestAnswers 0x05)))
        (readMsgBuf sampleHeader 3 (fun _ => 0) (fresh (replay (ingestAnswers 0x05)))).2) →
      t.get? 1 = some sampleHeader.READ ∧ t.get? 1 ≠ some sampleHeader.WRITE) ∧
    chipAfter sampleHeader (fun _ => 0xEE) (issued (fresh (replay (ingestAnswers 0x05)))
        (readMsgBuf sampleHeader 3 (fun _ => 0) (fresh (replay (ingestAnswers 0x05)))).2)
      = (fun _ => 0xEE)) :=
  ⟨by decide,
   C17_readMsgBuf_reads_only sampleHeader 3 (fun _ => 0) (fresh (replay (ingestAnswers 0x05)))
     (fun _ => 0xEE) (by decide)⟩

/-! ## Shared transmit region, last channel, and the receive buffer -/

/-- C18: for a fixed payload and length, the block staged by
`set_channel_for_transmit_message` (mailbox address and bytes) and the
message-pointer byte it writes do not depend on the channel index (nor on the
identifier or the acknowledgement flag): one block `blk` and one pointer byte
`ptr` serve every channel, only the addresses of the channel registers
differ. -/
theorem C18_transmit_region_shared (H : Header) (values : List Nat) (L : Nat) :
    ∃ address ptr, ∀ c id1 id2 ack s,
      ∃ b1 b3,
        scopes (issued s (set_channel_for_transmit_message H c id1 id2 values L ack s))
          = (address :: H.WRITE :: (List.range L).map (fun i => values.getD i 0))
              :: channelWrites H c id1 b1 ptr b3 id1 id2 :=
  ⟨_, _, fun c id1 id2 ack s => ⟨_, _, transmit_scopes H c id1 id2 values L ack s⟩⟩

/-- Evaluation of Transmit on channels 0 and 5 with the same three-byte
payload: both stage the bytes at address `0xFC` and write the pointer byte
123. -/
theorem transmit_channels_0_and_5_alias :
    scopes (issued idle
        (set_channel_for_transmit_message sampleHeader 0 0x1A 4 [0x11, 0x22, 0x33] 3 0 idle))
      = [0xFC, 0xE0, 0x11, 0x22, 0x33]
          :: channelWrites sampleHeader 0 0x1A 0x48 123 0x20 0x1A 4 ∧
    scopes (issued idle
        (set_channel_for_transmit_message sampleHeader 5 0x2B 7 [0x11, 0x22, 0x33] 3 1 idle))
      = [0xFC, 0xE0, 0x11, 0x22, 0x33]
          :: channelWrites sampleHeader 5 0x2B 0x7C 123 0x20 0x2B 7 := by
  decide

/-- C19: `getlastChannel` reads the last-message-status register once and
returns the low three bits of the byte read (`value & 0x07`), so its result is
a channel index in [0,7]. -/
theorem C19_getlastChannel (H : Header) (s : Driver) :
    scopes (issued s (getlastChannel H s).2) = [[H.LASTMESSAGESTATUS, H.READ, 0xff]] ∧
    (getlastChannel H s).1 = (s.miso (s.clock + 2) &&& 0x07) ∧
    (getlastChannel H s).1 ≤ 7 := by
  have hand : s.miso (s.clock + 2) &&& 0x07 = s.miso (s.clock + 2) % 8 :=
    Nat.and_pow_two_sub_one_eq_mod _ 3
  have hv : (getlastChannel H s).1 = s.miso (s.clock + 2) % 8 := by
    simp only [getlastChannel, register_get_value, ExtractBits_low, u8, Nat.reducePow]
    omega
  refine ⟨?_, ?_, ?_⟩
  · have h := issued_of_trace _ _ _ (register_get_trace H H.LASTMESSAGESTATUS s)
    simp only [getlastChannel]
    rw [h]
    simp [scopes, readActions, scopesFrom]
  · rw [hv, hand]
  · rw [hv]
    omega

/-- Evaluation of `getlastChannel` against a chip whose last-message-status
register reads `0xFD`: the result is 5. -/
theorem getlastChannel_status_FD :
    (getlastChannel sampleHeader (fresh (replay [0xAA, 0x55, 0xFD]))).1 = 5 := by
  decide

theorem receive_pointer_register (H : Header) (c id1 id2 L : Nat) (s : Driver)
    (rf : Nat → Nat) :
    chipAfter H rf (issued s (set_channel_for_receive_message H c id1 id2 L s))
        (u8 (CHANNEL_ADDR H c + 2))
      = 128 + (c * 30) % 128 := by
  have h3 : u8 (CHANNEL_ADDR H c + 2) ≠ u8 (CHANNEL_ADDR H c + 3) := by
    simp only [u8]; omega
  have h6 : u8 (CHANNEL_ADDR H c + 2) ≠ u8 (CHANNEL_ADDR H c + 6) := by
    simp only [u8]; omega
  have h7 : u8 (CHANNEL_ADDR H c + 2) ≠ u8 (CHANNEL_ADDR H c + 7) := by
    simp only [u8]; omega
  simp only [chipAfter, receive_scopes, chip_channelWrites, Function.update_apply, h3, h6, h7,
    if_false, if_true, bits, Nat.reducePow, Nat.one_mul]

/-- C20 (as amended): for every channel index `c` in [0,4], after
`set_channel_for_receive_message(c, ...)` on the register-file model of the
chip, a `readMsgBuf(c)` whose pointer read is answered with the content of the
channel's pointer register reads the status byte at `0x80 + M_P` (pointer with
`DRAK` stripped) and block-reads the payload from the 8-bit address
`(0x80 + c * 30 + 1) mod 256`; that address lies in the mailbox range
`0x80 .. 0xFF`, outside every channel register block (the eight blocks ending
at or below `0x7F`), and is the address of the status byte plus one. -/
theorem C20_receive_buffer_agrees (H : Header) (c id1 id2 L : Nat) (s : Driver)
    (rf buf : Nat → Nat) (t : Driver) (hc : c ≤ 4) (hbase : H.CHANNEL_BASE + 64 ≤ 0x80)
    (hptr : t.miso (t.clock + 8)
      = chipAfter H rf (issued s (set_channel_for_receive_message H c id1 id2 L s))
          (u8 (CHANNEL_ADDR H c + 2))) :
    ∃ r0 r1 r2 st blk n,
      scopes (issued t (readMsgBuf H c buf t).2)
        = [r0, r1, r2, [st, H.READ, 0xff], blk :: H.READ :: List.replicate n 0xff] ∧
      st = 0x80 + fieldM_P (chipAfter H rf
          (issued s (set_channel_for_receive_message H c id1 id2 L s))
          (u8 (CHANNEL_ADDR H c + 2))) ∧
      blk = (0x80 + (c * 30 + 1)) % 256 ∧
      0x80 ≤ blk ∧ blk ≤ 0xFF ∧
      (∀ k o, k < 8 → o < 8 → blk ≠ CHANNEL_ADDR H k + o) ∧
      blk = st + 1 := by
  rw [receive_pointer_register] at hptr
  have hblk : (0x80 + (c * 30 + 1)) % 256 = 0x80 + (c * 30 + 1) := by
    apply Nat.mod_eq_of_lt
    omega
  have hmp : c * 30 % 128 = c * 30 := by
    apply Nat.mod_eq_of_lt
    omega
  refine ⟨_, _, _, _, _, _, readMsgBuf_scopes H c buf t, ?_, ?_, ?_, ?_, ?_, ?_⟩
  · rw [receive_pointer_register, hptr]
    simp only [fieldM_P]
  · simp only [u8, GETMAIL]
  · simp only [u8, GETMAIL, hblk]; omega
  · simp only [u8, GETMAIL, hblk]; omega
  · intro k o hk ho
    simp only [u8, GETMAIL, CHANNEL_ADDR, hblk]
    omega
  · rw [hptr]
    simp only [u8, GETMAIL, hblk, hmp]
    omega

/-- C20, witness: Receive on channel 3, then `readMsgBuf(3)` against a chip
that answers the pointer read with the pointer byte `0xDA` it was given. -/
theorem C20_receive_buffer_agrees_witness :
    3 ≤ 4 ∧ sampleHeader.CHANNEL_BASE + 64 ≤ 0x80 ∧
    (fresh (replay (ingestAnswersAt 0xDA 0x05))).miso
        ((fresh (replay (ingestAnswersAt 0xDA 0x05))).clock + 8)
      = chipAfter sampleHeader (fun _ => 0)
          (issued idle (set_channel_for_receive_message sampleHeader 3 0x9C 4 8 idle))
          (u8 (CHANNEL_ADDR sampleHeader 3 + 2)) ∧
    ∃ r0 r1 r2 st blk n,
      scopes (issued (fresh (replay (ingestAnswersAt 0xDA 0x05)))
          (readMsgBuf sampleHeader 3 (fun _ => 0) (fresh (replay (ingestAnswersAt 0xDA 0x05)))).2)
        = [r0, r1, r2, [st, sampleHeader.READ, 0xff],
           blk :: sampleHeader.READ :: List.replicate n 0xff] ∧
      st = 0x80 + fieldM_P (chipAfter sampleHeader (fun _ => 0)
          (issued idle (set_channel_for_receive_message sampleHeader 3 0x9C 4 8 idle))
          (u8 (CHANNEL_ADDR sampleHeader 3 + 2))) ∧
      blk = (0x80 + (3 * 30 + 1)) % 256 ∧
      0x80 ≤ blk ∧ blk ≤ 0xFF ∧
      (∀ k o, k < 8 → o < 8 → blk ≠ CHANNEL_ADDR sampleHeader k + o) ∧
      blk = st + 1 :=
  ⟨by decide, by decide, by decide,
   C20_receive_buffer_agrees sampleHeader 3 0x9C 4 8 idle (fun _ => 0) (fun _ => 0)
     (fresh (replay (ingestAnswersAt 0xDA 0x05))) (by decide) (by decide) (by decide)⟩

/-- C20, counterexample: after Receive on channel 5 the pointer register holds
150 (`DRAK = 1`, `M_P = 22`); `readMsgBuf(5)`, answered with that pointer byte,
reads the status byte at `0x96` and block-reads the payload from `0x17`, which
is below the mailbox range, is offset 7 of the register block of channel 0,
and is not the status address plus one. -/
theorem C20_counterexample_channel_5 :
    5 ≤ 7 ∧
    chipAfter sampleHeader (fun _ => 0)
        (issued idle (set_channel_for_receive_message sampleHeader 5 0x9C 4 8 idle))
        (u8 (CHANNEL_ADDR sampleHeader 5 + 2)) = 150 ∧
    (fresh (replay (ingestAnswersAt 150 0x05))).miso
        ((fresh (replay (ingestAnswersAt 150 0x05))).clock + 8) = 150 ∧
    scopes (issued (fresh (replay (ingestAnswersAt 150 0x05)))
        (readMsgBuf sampleHeader 5 (fun _ => 0) (fresh (replay (ingestAnswersAt 150 0x05)))).2)
      = [[0x38, 0x60, 0xff], [0x39, 0x60, 0xff], [0x3A, 0x60, 0xff], [0x96, 0x60, 0xff],
         [0x17, 0x60, 0xff, 0xff, 0xff, 0xff, 0xff]] ∧
    ¬ (0x80 ≤ 0x17) ∧ 0x17 = CHANNEL_ADDR sampleHeader 0 + 7 ∧ 0x17 ≠ 0x96 + 1 := by
  decide

/-! ## Selection scopes -/

theorem scopedFrom_exchanges (vs : List Nat) (t : List Action) :
    scopedFrom true (vs.map Action.exchange ++ t) = scopedFrom true t := by
  induction vs with
  | nil => simp
  | cons v vs ih => simp [scopedFrom, ih]

theorem scopedFrom_fillers (n v : Nat) (t : List Action) :
    scopedFrom true (List.replicate n (Action.exchange v) ++ t) = scopedFrom true t := by
  induction n with
  | zero => simp
  | succ n ih => simp [List.replicate_succ, scopedFrom, ih]

theorem bracketed_append (a b : List Action) (ha : Bracketed a) (hb : Bracketed b) :
    Bracketed (a ++ b) := by
  obtain ⟨ha1, ha2, ha3⟩ := ha
  obtain ⟨hb1, hb2, hb3⟩ := hb
  refine ⟨?_, ?_, ?_⟩
  · intro t
    rw [List.append_assoc, ha1, hb1]
  · simp [ha2]
  · simp [hb3]

theorem bracketed_writeActions (H : Header) (a v : Nat) : Bracketed (writeActions H a v) := by
  refine ⟨?_, ?_, ?_⟩
  · intro t
    simp [writeActions, scopedFrom]
  · simp [writeActions]
  · simp [writeActions]

theorem bracketed_readActions (H : Header) (a : Nat) : Bracketed (readActions H a) := by
  refine ⟨?_, ?_, ?_⟩
  · intro t
    simp [readActions, scopedFrom]
  · simp [readActions]
  · simp [readActions]

theorem bracketed_blockWriteActions (H : Header) (a : Nat) (vs : List Nat) :
    Bracketed (blockWriteActions H a vs) := by
  refine ⟨?_, ?_, ?_⟩
  · intro t
    simp [blockWriteActions, scopedFrom, scopedFrom_exchanges]
  · simp [blockWriteActions]
  · unfold blockWriteActions
    rw [List.getLast?_append]
    rfl

theorem bracketed_blockReadActions (H : Header) (a n : Nat) :
    Bracketed (blockReadActions H a n) := by
  refine ⟨?_, ?_, ?_⟩
  · intro t
    simp [blockReadActions, scopedFrom, scopedFrom_fillers]
  · simp [blockReadActions]
  · unfold blockReadActions
    rw [List.getLast?_append]
    rfl

theorem bracketed_six_writes (H : Header) (c b0 b1 b2 b3 b6 b7 : Nat) :
    Bracketed (writeActions H (u8 (CHANNEL_ADDR H c + 0)) b0
        ++ (writeActions H (u8 (CHANNEL_ADDR H c + 1)) b1
        ++ (writeActions H (u8 (CHANNEL_ADDR H c + 2)) b2
        ++ (writeActions H (u8 (CHANNEL_ADDR H c + 3)) b3
        ++ (writeActions H (u8 (CHANNEL_ADDR H c + 6)) b6
        ++ writeActions H (u8 (CHANNEL_ADDR H c + 7)) b7))))) := by
  repeat first
    | exact bracketed_writeActions _ _ _
    | apply bracketed_append

theorem bracketed_setup_channel (H : Header) (c id1 id2 b1 b2 b3 : Nat) (s : Driver) :
    Bracketed (issued s (setup_channel H c id1 id2 b1 b2 b3 s)) := by
  rw [issued_of_trace _ _ _ (setup_channel_trace H c id1 id2 b1 b2 b3 s)]
  exact bracketed_six_writes H c id1 b1 b2 b3 id1 id2

theorem bracketed_staged (H : Header) (a : Nat) (values : List Nat) (L c id1 id2 b1 b2 b3 : Nat)
    (s : Driver) :
    Bracketed (issued s (setup_channel H c id1 id2 b1 b2 b3 (registers_set H a values L s))) := by
  have h : (setup_channel H c id1 id2 b1 b2 b3 (registers_set H a values L s)).trace
      = s.trace ++ (blockWriteActions H a ((List.range L).map (fun i => values.getD i 0))
          ++ issued (registers_set H a values L s)
              (setup_channel H c id1 id2 b1 b2 b3 (registers_set H a values L s))) := by
    rw [issued_of_trace _ _ _ (setup_channel_trace H c id1 id2 b1 b2 b3 _),
      setup_channel_trace, registers_set_trace, List.append_assoc]
  rw [issued_of_trace _ _ _ h]
  exact bracketed_append _ _ (bracketed_blockWriteActions H a _)
    (bracketed_setup_channel H c id1 id2 b1 b2 b3 _)

theorem bracketed_disable_channel (H : Header) (c : Nat) (s : Driver) :
    Bracketed (issued s (disable_channel H c s)) := by
  have h : (disable_channel H c s).trace
      = s.trace ++ (writeActions H (u8 (CHANNEL_ADDR H c + 0)) 0
        ++ (writeActions H (u8 (CHANNEL_ADDR H c + 1)) 0
        ++ (writeActions H (u8 (CHANNEL_ADDR H c + 2)) 0
        ++ (writeActions H (u8 (CHANNEL_ADDR H c + 3)) 0x0F
        ++ (writeActions H (u8 (CHANNEL_ADDR H c + 6)) 0
        ++ writeActions H (u8 (CHANNEL_ADDR H c + 7)) 0))))) := by
    simp only [disable_channel, register_set_trace, List.append_assoc]
  rw [issued_of_trace _ _ _ h]
  exact bracketed_six_writes H c 0 0 0 0x0F 0 0

theorem bracketed_configure (H : Header) (m : Mode) (c id1 id2 : Nat) (values : List Nat)
    (L ack : Nat) (s : Driver) :
    Bracketed (issued s (configure H m c id1 id2 values L ack s)) := by
  cases m with
  | Transmit => exact bracketed_staged H _ values L c id1 id2 _ _ _ s
  | Receive => exact bracketed_setup_channel H c id1 id2 _ _ _ s
  | ReplyRequestNoTx => exact bracketed_setup_channel H c id1 id2 _ _ _ s
  | ReplyRequest => exact bracketed_setup_channel H c id1 id2 _ _ _ s
  | ImmediateReply => exact bracketed_staged H _ values L c id1 id2 _ _ _ s
  | DeferredReply => exact bracketed_staged H _ values L c id1 id2 _ _ _ s
  | ReplyRequestDetection => exact bracketed_setup_channel H c id1 id2 _ _ _ s

theorem readMsgBuf_trace (H : Header) (c : Nat) (buf : Nat → Nat) (s : Driver) :
    (readMsgBuf H c buf s).2.trace
      = s.trace ++ (readActions H (u8 (CHANNEL_ADDR H c + 0))
        ++ (readActions H (u8 (CHANNEL_ADDR H c + 1))
        ++ (readActions H (u8 (CHANNEL_ADDR H c + 2))
        ++ (readActions H (0x80 + s.miso (s.clock + 8) % 128)
        ++ blockReadActions H (u8 (GETMAIL (c * 30 + 1)))
            (s.miso (s.clock + 11) % 32))))) := by
  have h : s.miso (s.clock + 11) % 32 % 256 = s.miso (s.clock + 11) % 32 := by omega
  have h8 : (0x80 + s.miso (s.clock + 8) % 128 % 256) % 256
      = 0x80 + s.miso (s.clock + 8) % 128 := by omega
  simp only [readMsgBuf, register_get_value, register_get_clock, register_get_miso,
    register_get_trace, registers_get_trace, ExtractBits_low, u8, GETMAIL, Nat.reducePow,
    Nat.add_assoc, Nat.reduceAdd, List.append_assoc, h, h8]

theorem bracketed_readMsgBuf (H : Header) (c : Nat) (buf : Nat → Nat) (s : Driver) :
    Bracketed (issued s (readMsgBuf H c buf s).2) := by
  rw [issued_of_trace _ _ _ (readMsgBuf_trace H c buf s)]
  repeat first
    | exact bracketed_readActions _ _
    | exact bracketed_blockReadActions _ _ _
    | apply bracketed_append

/-- C21: for every public operation (the four register primitives,
`disable_channel`, the seven configure operations, `readMsgBuf`,
`getlastChannel`), every input and every chip answer, the actions issued by
the call start with a select and end with a deselect, select and deselect
strictly alternate, and every byte exchange lies between a select and the
deselect that follows it, so no two selection scopes overlap. -/
theorem C21_selection_scopes (H : Header) (call : Call) (s : Driver) :
    wellScoped (issued s (runCall H call s)) = true ∧
    (issued s (runCall H call s)).head? = some Action.select ∧
    (issued s (runCall H call s)).getLast? = some Action.deselect := by
  have hb : Bracketed (issued s (runCall H call s)) := by
    cases call with
    | registerSet address value =>
      simp only [runCall]
      rw [issued_of_trace _ _ _ (register_set_trace H address value s)]
      exact bracketed_writeActions H address value
    | registersSet address values count =>
      simp only [runCall]
      rw [issued_of_trace _ _ _ (registers_set_trace H address values count s)]
      exact bracketed_blockWriteActions H address _
    | registerGet address =>
      simp only [runCall]
      rw [issued_of_trace _ _ _ (register_get_trace H address s)]
      exact bracketed_readActions H address
    | registersGet address values count =>
      simp only [runCall]
      rw [issued_of_trace _ _ _ (registers_get_trace H address values count s)]
      exact bracketed_blockReadActions H address count
    | disableChannel channelId => exact bracketed_disable_channel H channelId s
    | configureChannel m channelId id1 id2 values messageLength requireAck =>
      exact bracketed_configure H m channelId id1 id2 values messageLength requireAck s
    | readMessage channelId buf => exact bracketed_readMsgBuf H channelId buf s
    | lastChannel =>
      simp only [runCall, getlastChannel]
      rw [issued_of_trace _ _ _ (register_get_trace H H.LASTMESSAGESTATUS s)]
      exact bracketed_readActions H H.LASTMESSAGESTATUS
  obtain ⟨h1, h2, h3⟩ := hb
  refine ⟨?_, h2, h3⟩
  have h := h1 []
  simp only [List.append_nil] at h
  rw [wellScoped, h]
  rfl

/-- Evaluation of the selection discipline: the actions of a Transmit call
pass the check, while a nested select, an exchange outside a scope and a
scope left open fail it. -/
theorem wellScoped_examples :
    wellScoped (issued idle (runCall sampleHeader
      (Call.configureChannel Mode.Transmit 2 0x1A 4 [0x11, 0x22, 0x33] 3 0) idle)) = true ∧
    wellScoped [Action.select, Action.select, Action.deselect] = false ∧
    wellScoped [Action.exchange 1, Action.select, Action.deselect] = false ∧
    wellScoped [Action.select, Action.exchange 1] = false ∧
    wellScoped [Action.select, Action.deselect, Action.deselect] = false := by
  decide

/-! ## The comment table of Transmit, receive regions and the mask bytes -/

/-- C22, evaluation at the failing input: Transmit on channel 2 writes the
byte `0x48` to offset 1 and `0x20` to offset 3, so `RNW = 0` and `CHTx = 0` as in
the "Initial setup" row of the comment table, but `RTR = 0` where the row
says 1. -/
theorem C22_transmit_writes_RTR_0 :
    scopes (issued idle
        (set_channel_for_transmit_message sampleHeader 2 0x1A 4 [0x11, 0x22, 0x33] 3 0 idle))
      = [0xFC, 0xE0, 0x11, 0x22, 0x33]
          :: channelWrites sampleHeader 2 0x1A 0x48 123 0x20 0x1A 4 ∧
    fieldRNW 0x48 = 0 ∧ fieldRTR 0x48 = 0 ∧ fieldRTR 0x48 ≠ 1 ∧ fieldCHTx 0x20 = 0 := by
  decide

/-- C23 (as amended): for any two distinct channel indices `a`, `b` in [0,4],
the 30-byte regions `[M_P, M_P + 29]` designated by the pointer bytes that
`set_channel_for_receive_message` writes for `a` and for `b` are disjoint; the
region of a channel index in [0,2] does not meet the region 97..126 used by
Transmit. -/
theorem C23_receive_regions (H : Header) (a b ida1 ida2 La idb1 idb2 Lb : Nat)
    (s t : Driver) (ha : a ≤ 4) (hb : b ≤ 4) (hab : a ≠ b) :
    ∃ a1 pa a3 b1 pb b3,
      scopes (issued s (set_channel_for_receive_message H a ida1 ida2 La s))
        = channelWrites H a ida1 a1 pa a3 ida1 ida2 ∧
      scopes (issued t (set_channel_for_receive_message H b idb1 idb2 Lb t))
        = channelWrites H b idb1 b1 pb b3 idb1 idb2 ∧
      (∀ x, ¬ (fieldM_P pa ≤ x ∧ x ≤ fieldM_P pa + 29 ∧
               fieldM_P pb ≤ x ∧ x ≤ fieldM_P pb + 29)) ∧
      (a ≤ 2 → ∀ x, ¬ (fieldM_P pa ≤ x ∧ x ≤ fieldM_P pa + 29 ∧ 97 ≤ x ∧ x ≤ 126)) ∧
      (b ≤ 2 → ∀ x, ¬ (fieldM_P pb ≤ x ∧ x ≤ fieldM_P pb + 29 ∧ 97 ≤ x ∧ x ≤ 126)) := by
  have hfa : fieldM_P (1 * 128 + bits 7 (a * 30)) = a * 30 := by
    interval_cases a <;> rfl
  have hfb : fieldM_P (1 * 128 + bits 7 (b * 30)) = b * 30 := by
    interval_cases b <;> rfl
  refine ⟨_, _, _, _, _, _, receive_scopes H a ida1 ida2 La s,
    receive_scopes H b idb1 idb2 Lb t, ?_, ?_, ?_⟩
  · intro x
    rw [hfa, hfb]
    omega
  · intro h x
    rw [hfa]
    omega
  · intro h x
    rw [hfb]
    omega

/-- C23, witness: channels 1 and 2. -/
theorem C23_receive_regions_witness :
    1 ≤ 4 ∧ 2 ≤ 4 ∧ 1 ≠ 2 ∧
    ∃ a1 pa a3 b1 pb b3,
      scopes (issued idle (set_channel_for_receive_message sampleHeader 1 0x9C 4 8 idle))
        = channelWrites sampleHeader 1 0x9C a1 pa a3 0x9C 4 ∧
      scopes (issued idle (set_channel_for_receive_message sampleHeader 2 0x8A 4 8 idle))
        = channelWrites sampleHeader 2 0x8A b1 pb b3 0x8A 4 ∧
      (∀ x, ¬ (fieldM_P pa ≤ x ∧ x ≤ fieldM_P pa + 29 ∧
               fieldM_P pb ≤ x ∧ x ≤ fieldM_P pb + 29)) ∧
      (1 ≤ 2 → ∀ x, ¬ (fieldM_P pa ≤ x ∧ x ≤ fieldM_P pa + 29 ∧ 97 ≤ x ∧ x ≤ 126)) ∧
      (2 ≤ 2 → ∀ x, ¬ (fieldM_P pb ≤ x ∧ x ≤ fieldM_P pb + 29 ∧ 97 ≤ x ∧ x ≤ 126)) :=
  ⟨by decide, by decide, by decide,
   C23_receive_regions sampleHeader 1 2 0x9C 4 8 0x8A 4 8 idle idle (by decide) (by decide)
     (by decide)⟩

/-- C23, counterexample: Receive writes the pointer bytes 128, 150 and 218 for
the channels 0, 5 and 3, that is `M_P` = 0, 22 and 90; mailbox offset 25 lies
in the regions of both channel 0 and channel 5, and offset 100 lies in the
region of channel 3 and in 97..126. -/
theorem C23_counterexample_overlaps :
    scopes (issued idle (set_channel_for_receive_message sampleHeader 0 0x9C 4 8 idle))
      = channelWrites sampleHeader 0 0x9C 0x49 128 0x48 0x9C 4 ∧
    scopes (issued idle (set_channel_for_receive_message sampleHeader 5 0x9C 4 8 idle))
      = channelWrites sampleHeader 5 0x9C 0x49 150 0x48 0x9C 4 ∧
    scopes (issued idle (set_channel_for_receive_message sampleHeader 3 0x9C 4 8 idle))
      = channelWrites sampleHeader 3 0x9C 0x49 218 0x48 0x9C 4 ∧
    (0 : Nat) ≠ 5 ∧
    (fieldM_P 128 ≤ 25 ∧ 25 ≤ fieldM_P 128 + 29 ∧ fieldM_P 150 ≤ 25 ∧ 25 ≤ fieldM_P 150 + 29) ∧
    (fieldM_P 218 ≤ 100 ∧ 100 ≤ fieldM_P 218 + 29 ∧ 97 ≤ 100 ∧ 100 ≤ 126) := by
  decide

theorem configure_shape (H : Header) (m : Mode) (c id1 id2 : Nat) (values : List Nat)
    (L ack : Nat) (s : Driver) :
    ∃ pre b1 b2 b3,
      scopes (issued s (configure H m c id1 id2 values L ack s))
        = pre ++ channelWrites H c id1 b1 b2 b3 id1 id2 ∧
      b1 / 16 = id2 % 16 ∧
      (pre = [] ∨ ∃ vs, pre = [u8 (GETMAIL (fieldM_P b2 + 1)) :: H.WRITE :: vs]) := by
  have hx : c * 30 % 128 < 128 := Nat.mod_lt _ (by norm_num)
  cases m with
  | Transmit =>
    have hp := bitsInt_lt 7 (127 - ((L : Int) + 1))
    have hf : fieldM_P (0 * 128 + bitsInt 7 (127 - ((L : Int) + 1)))
        = bitsInt 7 (127 - ((L : Int) + 1)) := by
      simp only [fieldM_P, Nat.reducePow] at hp ⊢
      omega
    refine ⟨[_], _, _, _, transmit_scopes H c id1 id2 values L ack s, ?_, Or.inr ⟨(List.range L).map (fun i => values.getD i 0), ?_⟩⟩
    · simp only [bits, Nat.reducePow]; omega
    · rw [hf]
  | Receive =>
    refine ⟨[], _, _, _, receive_scopes H c id1 id2 L s, ?_, Or.inl rfl⟩
    simp only [bits, Nat.reducePow]; omega
  | ReplyRequestNoTx =>
    refine ⟨[], _, _, _, reply_request_no_tx_scopes H c id1 id2 L s, ?_, Or.inl rfl⟩
    simp only [bits, Nat.reducePow]; omega
  | ReplyRequest =>
    refine ⟨[], _, _, _, reply_request_scopes H c id1 id2 L s, ?_, Or.inl rfl⟩
    simp only [bits, Nat.reducePow]; omega
  | ImmediateReply =>
    have hf : fieldM_P (0 * 128 + bits 7 (c * 30)) = bits 7 (c * 30) := by
      simp only [fieldM_P, bits, Nat.reducePow]
      omega
    refine ⟨[_], _, _, _, immediate_reply_scopes H c id1 id2 values L s, ?_, Or.inr ⟨(List.range L).map (fun i => values.getD i 0), ?_⟩⟩
    · simp only [bits, Nat.reducePow]; omega
    · rw [hf]
  | DeferredReply =>
    have hf : fieldM_P (1 * 128 + bits 7 (c * 30)) = bits 7 (c * 30) := by
      simp only [fieldM_P, bits, Nat.reducePow]
      omega
    refine ⟨[_], _, _, _, deferred_reply_scopes H c id1 id2 values L s, ?_, Or.inr ⟨(List.range L).map (fun i => values.getD i 0), ?_⟩⟩
    · simp only [bits, Nat.reducePow]; omega
    · rw [hf]
  | ReplyRequestDetection =>
    refine ⟨[], _, _, _, reply_request_detection_scopes H c id1 id2 L s, ?_, Or.inl rfl⟩
    simp only [bits, Nat.reducePow]; omega

/-- C24: for every `id1` and every `id2`, every configure operation writes
exactly six channel registers, in the order offsets 0, 1, 2, 3, 6, 7 (after at
most one block write, which goes to the mailbox address of `M_P + 1`); offset 6
receives `id1` and offset 7 the caller's `id2` as passed, unshifted and
unmasked, while the high nibble of the byte at offset 1 (`ID_T[3:0]`) is
`id2 mod 16`.  For `id2 < 16` the high nibble of the byte at offset 7
(`ID_M[3:0]`) is therefore 0, while `ID_T[3:0]` at offset 1 is `id2`. -/
theorem C24_six_writes_raw_mask (H : Header) (m : Mode) (c id1 id2 : Nat)
    (values : List Nat) (L ack : Nat) (s : Driver) :
    ∃ pre b1 b2 b3,
      scopes (issued s (configure H m c id1 id2 values L ack s))
        = pre ++ [[u8 (CHANNEL_ADDR H c + 0), H.WRITE, id1],
                  [u8 (CHANNEL_ADDR H c + 1), H.WRITE, b1],
                  [u8 (CHANNEL_ADDR H c + 2), H.WRITE, b2],
                  [u8 (CHANNEL_ADDR H c + 3), H.WRITE, b3],
                  [u8 (CHANNEL_ADDR H c + 6), H.WRITE, id1],
                  [u8 (CHANNEL_ADDR H c + 7), H.WRITE, id2]] ∧
      (pre = [] ∨ ∃ vs, pre = [u8 (GETMAIL (fieldM_P b2 + 1)) :: H.WRITE :: vs]) ∧
      fieldID b1 = id2 % 16 ∧
      (id2 < 16 → fieldID id2 = 0 ∧ fieldID b1 = id2) := by
  obtain ⟨pre, b1, b2, b3, h1, h2, h3⟩ := configure_shape H m c id1 id2 values L ack s
  refine ⟨pre, b1, b2, b3, h1, h3, ?_, ?_⟩
  · simp only [fieldID]; omega
  · intro hid
    simp only [fieldID]; omega

/-- Evaluation of Receive on channel 1 with `id1 = 0x9C` and `id2 = 0xC4`, which
is above 15: offset 7 receives the raw byte `0xC4`, whose high nibble is `0xC`,
while offset 1 receives `0x49`, whose high nibble is `0xC4 mod 16 = 4`. -/
theorem receive_channel_1_raw_id2 :
    scopes (issued idle (configure sampleHeader Mode.Receive 1 0x9C 0xC4 [] 8 0 idle))
      = [[0x18, 0xE0, 0x9C], [0x19, 0xE0, 0x49], [0x1A, 0xE0, 0x9E], [0x1B, 0xE0, 0x48],
         [0x1E, 0xE0, 0x9C], [0x1F, 0xE0, 0xC4]] ∧
    fieldID 0x49 = 4 ∧ fieldID 0xC4 = 0xC := by
  decide

/-- Evaluation of Receive on channel 1 with `id1 = 0x9C`, `id2 = 4`: the six
registers receive `0x9C`, `0x49`, `0x9E`, `0x48`, `0x9C`, `0x04`. -/
theorem receive_channel_1_registers :
    scopes (issued idle (configure sampleHeader Mode.Receive 1 0x9C 4 [] 8 0 idle))
      = [[0x18, 0xE0, 0x9C], [0x19, 0xE0, 0x49], [0x1A, 0xE0, 0x9E], [0x1B, 0xE0, 0x48],
         [0x1E, 0xE0, 0x9C], [0x1F, 0xE0, 0x04]] ∧
    fieldID 0x49 = 4 ∧ fieldID 0x04 = 0 := by
  decide

end TSS463
